import Mathlib

/-!
Verification development for the Tides of the Deep combat/progression engine
(`src/game/engine.ts`).  The engine is a pure state-transition function over a
declarative content bundle and a game snapshot; this file gives a shallow
embedding of its data model and of the operations the checked claims mention,
and proves or refutes each claim.

Modelling conventions:
* JavaScript numbers are modelled as `ℚ` (all engine arithmetic on resources is
  exact decimal arithmetic followed by `Math.round`/`Math.floor`/`Math.ceil`);
  fields that the engine only ever uses as integers (`level`, `turn`, contract
  `index`) are modelled as `ℤ`.
* `Math.round` in JS rounds half toward positive infinity, i.e.
  `Math.round x = ⌊x + 1/2⌋`.
* TS `Record<Id, T>` objects are modelled as insertion-ordered association
  lists (`List (Id × T)`); `obj[k]` is `alookup`, the spread-update
  `{...obj, [k]: v}` is `aset`, and `Object.entries` iteration is a fold over
  the list.
* Optional fields (`x?: T`) are `Option T`; the `??` operator is `Option.getD`
  or an explicit match mirroring the source's `typeof` guards.
* `Math.random()` is injected as an explicit rational argument in `[0,1)`
  (`startFight`) or as a stream `ℕ → ℚ` (`startContract`), per the spec's
  requirement that randomness be injectable.
* Event texts that interpolate numbers keep only their fixed prefix; texts
  that interpolate ids keep the id (the claims only inspect the event kind and
  the named id).
-/

namespace Tides

/-- Content/entity identifier (TS `Id = string`). -/
abbrev Id := String

/-- JS `Math.round`: round half up, `⌊x + 1/2⌋`, as a rational. -/
def jsRound (q : ℚ) : ℚ := ((⌊q + 1/2⌋ : ℤ) : ℚ)

/-- JS `Math.floor` as a rational. -/
def jsFloor (q : ℚ) : ℚ := ((⌊q⌋ : ℤ) : ℚ)

/-- JS `Math.ceil` as a rational. -/
def jsCeil (q : ℚ) : ℚ := ((⌈q⌉ : ℤ) : ℚ)

/-- Engine helper `clamp(v, min, max) = Math.max(min, Math.min(max, v))`. -/
def clamp (v lo hi : ℚ) : ℚ := max lo (min hi v)

/-- Engine helper `clampNumber`: clamp when the value is a number, otherwise
return the fallback (unclamped, exactly as in the source). -/
def clampNumber (v : Option ℚ) (lo hi fallback : ℚ) : ℚ :=
  match v with
  | none => fallback
  | some x => clamp x lo hi

/-- `clampNumber` for integer-used fields (contract `index`). -/
def clampNumberI (v : Option ℤ) (lo hi fallback : ℤ) : ℤ :=
  match v with
  | none => fallback
  | some x => max lo (min hi x)

/-- Lookup in an association list, mirroring `obj[key]` on a JS object. -/
def alookup {κ α : Type} [DecidableEq κ] : List (κ × α) → κ → Option α
  | [], _ => none
  | (k', v) :: rest, k => if k' = k then some v else alookup rest k

/-- JS object spread-update `{...obj, [k]: v}`: replace the binding in place
if the key exists (order preserved), else append. -/
def aset {κ α : Type} [DecidableEq κ] : List (κ × α) → κ → α → List (κ × α)
  | [], k, v => [(k, v)]
  | (k', v') :: rest, k, v =>
    if k' = k then (k, v) :: rest else (k', v') :: aset rest k v

/-- JS `Set` insertion: append if not already present (insertion order kept). -/
def insertUnique (l : List Id) (x : Id) : List Id :=
  if x ∈ l then l else l ++ [x]

-- ---------------------------------------------------------------------------
-- CONTENT BUNDLE (src/game/types.ts)
-- ---------------------------------------------------------------------------

/-- The five player stats (TS `StatKey`). -/
inductive StatKey
  | control | power | durability | precision | tactics
deriving DecidableEq

/-- TS `PlayerStats = Record<StatKey, number>`. -/
structure PlayerStats where
  control : ℚ
  power : ℚ
  durability : ℚ
  precision : ℚ
  tactics : ℚ
deriving DecidableEq

/-- Read one stat (`stats[k]`). -/
def statGet (s : PlayerStats) : StatKey → ℚ
  | .control => s.control
  | .power => s.power
  | .durability => s.durability
  | .precision => s.precision
  | .tactics => s.tactics

/-- Write one stat (`{...stats, [k]: v}`). -/
def statSet (s : PlayerStats) : StatKey → ℚ → PlayerStats
  | .control, v => { s with control := v }
  | .power, v => { s with power := v }
  | .durability, v => { s with durability := v }
  | .precision, v => { s with precision := v }
  | .tactics, v => { s with tactics := v }

inductive FishPhase
  | AGGRESSIVE | DEFENSIVE | EXHAUSTED
deriving DecidableEq

inductive TimingGrade
  | MISS | GOOD | PERFECT
deriving DecidableEq

inductive SkillType
  | PASSIVE | ACTIVE | REACTIVE
deriving DecidableEq

/-- TS `SkillEffect` tagged union. -/
inductive SkillEffect
  | INTEGRITY_WEAR_MULT (multPerRank : ℚ)
  | FISH_TENSION_MULT (multPerRank : ℚ)
  | BRACE_BONUS (bracePerRank reliefPerRank : ℚ)
  | CONTROL_ON_BRACE (controlPerRank : ℚ)
  | STAMINA_BLEED_EXHAUSTED (bleedPerRank : ℚ)
  | CONTROL_ON_HIGH_TENSION (threshold controlPerRank : ℚ)
  | NEGATE_WEAR_ON_PERFECT
deriving DecidableEq

/-- A `{enemyId, weight}` row of an encounter pool. -/
structure EncounterEntry where
  enemyId : Id
  weight : ℚ
deriving DecidableEq

structure Region where
  id : Id
  name : String
  requiredLevel : ℚ
  encounterPool : List EncounterEntry
deriving DecidableEq

/-- Enemy ("fish"): canonical `stamina`/`pressure` with legacy `maxHp`/`attack`
fallbacks, exactly as in the TS type. -/
structure Enemy where
  id : Id
  name : String
  xp : ℚ
  stamina : Option ℚ
  pressure : Option ℚ
  maxHp : Option ℚ
  attack : Option ℚ
deriving DecidableEq

/-- TS action `kind` (canonical fishing kinds plus legacy kinds). -/
inductive ActionKind
  | reel | brace | adjust | technique | attack | utility
deriving DecidableEq

structure ActionDef where
  id : Id
  label : String
  kind : ActionKind
  staminaDelta : Option ℚ
  tensionDelta : Option ℚ
  integrityDelta : Option ℚ
  damage : Option ℚ
  heal : Option ℚ
  focusCost : Option ℚ
  focusGain : Option ℚ
deriving DecidableEq

structure Skill where
  id : Id
  label : String
  type : SkillType
  requiredLevel : ℚ
  maxRank : ℚ
  prereq : List Id
  grantsActions : List Id
  effects : List SkillEffect
deriving DecidableEq

/-- Item: canonical `integrityRestore`/`tensionReduce`, legacy `heal`. -/
structure Item where
  id : Id
  label : String
  integrityRestore : Option ℚ
  tensionReduce : Option ℚ
  heal : Option ℚ
deriving DecidableEq

/-- Rig-mod ("equipment modifier") effect variants. -/
inductive RigEffect
  | STAT_BONUS (stat : StatKey) (add : ℚ)
  | FISH_TENSION_MULT (mult : ℚ)
  | INTEGRITY_WEAR_MULT (mult : ℚ)
deriving DecidableEq

structure RigMod where
  id : Id
  label : String
  effects : List RigEffect
deriving DecidableEq

structure EncounterCount where
  min : ℚ
  max : ℚ
deriving DecidableEq

/-- Contract definition.  Reward ranges and the camp shop reference are not
used by any modelled operation (`startContract` rolls no rewards) and are
omitted. -/
structure ContractDef where
  id : Id
  label : String
  regionId : Id
  encounterCount : Option EncounterCount
  encounterPool : Option (List EncounterEntry)
deriving DecidableEq

structure XpCurve where
  base : ℚ
  growth : ℚ
deriving DecidableEq

structure ProgressionTuning where
  baseLineIntegrity : Option ℚ
  lineIntegrityPerLevel : Option ℚ
  lineIntegrityPerDurability : Option ℚ
deriving DecidableEq

/-- `content.tuning` (the timing sub-record is only read by the timing-window
helper, which no claim mentions, and is omitted). -/
structure Tuning where
  progression : Option ProgressionTuning
deriving DecidableEq

structure Loadout where
  startActions : Option (List Id)
  startItems : Option (List (Id × ℚ))
deriving DecidableEq

structure Economy where
  startingCurrency : Option ℚ
deriving DecidableEq

/-- The immutable content bundle consumed by every engine call. -/
structure ContentBundle where
  contentVersion : Option String
  xpCurve : Option XpCurve
  tuning : Option Tuning
  regions : List (Id × Region)
  enemies : List (Id × Enemy)
  actions : List (Id × ActionDef)
  skills : Option (List (Id × Skill))
  items : List (Id × Item)
  loadout : Option Loadout
  economy : Option Economy
  rigMods : Option (List (Id × RigMod))
  contracts : Option (List (Id × ContractDef))
deriving DecidableEq

-- ---------------------------------------------------------------------------
-- GAME SNAPSHOT (src/game/types.ts)
-- ---------------------------------------------------------------------------

inductive TurnPhase
  | PLAYER | FISH
deriving DecidableEq

inductive Outcome
  | NONE | DEFEAT_PROMPT
deriving DecidableEq

inductive ContractPhase
  | FIGHT | CAMP | SUMMARY
deriving DecidableEq

/-- A `{regionId, enemyId}` pair (contract encounters and `lastSpawn`). -/
structure EncounterRef where
  regionId : Id
  enemyId : Id
deriving DecidableEq

/-- Skill-driven ephemeral combat flags. -/
structure SkillFlags where
  negateWearThisTurn : Option Bool
  highTensionTriggeredTurn : Option ℤ
deriving DecidableEq

structure Combat where
  enemyId : Id
  fishStamina : ℚ
  maxFishStamina : ℚ
  fishPhase : FishPhase
  phase : TurnPhase
  turn : ℤ
  brace : ℚ
  control : ℚ
  skill : Option SkillFlags
  lastSpawn : Option EncounterRef
  outcome : Option Outcome
deriving DecidableEq

structure ContractStats where
  perfectCount : ℚ
  fightsWon : ℚ
deriving DecidableEq

structure ContractEarned where
  currency : ℚ
deriving DecidableEq

structure ContractReward where
  currency : Option ℚ
deriving DecidableEq

structure ContractState where
  contractId : Id
  regionId : Id
  encounters : List EncounterRef
  index : ℤ
  phase : ContractPhase
  stats : ContractStats
  earned : ContractEarned
  lastReward : Option ContractReward
deriving DecidableEq

structure Player where
  level : ℤ
  xp : ℚ
  xpToNext : ℚ
  stats : PlayerStats
  unspentStatPoints : ℚ
  skillRanks : List (Id × ℚ)
  unspentSkillPoints : ℚ
  tension : ℚ
  maxTension : ℚ
  lineIntegrity : ℚ
  maxLineIntegrity : ℚ
  knownActions : List Id
  inventory : List (Id × ℚ)
deriving DecidableEq

structure Progress where
  regionId : Id
deriving DecidableEq

/-- TS `GameEvent` tagged union (numeric interpolations in `text` dropped). -/
inductive GameEvent
  | log (text : String)
  | timing (grade : TimingGrade)
  | tension (delta tension : ℚ) (reason : Option String)
  | integrity (delta integrity : ℚ) (reason : Option String)
  | stamina (delta : ℚ) (phase : FishPhase) (reason : Option String)
  | phaseChange (phase : FishPhase)
  | xp (amount : ℚ)
  | levelUp (level : ℤ)
  | spawn (regionId enemyId : Id)
  | defeatPrompt
  | fled
deriving DecidableEq

/-- The game snapshot: the unit of persistence, wholly owned by the engine. -/
structure GameState where
  contentVersion : Option String
  progress : Progress
  player : Player
  currency : Option ℚ
  temporaryMods : Option (List Id)
  contract : Option ContractState
  combat : Option Combat
  lastEvent : Option GameEvent
deriving DecidableEq

-- ---------------------------------------------------------------------------
-- CONTENT INTERPRETATION (engine.ts: getFish / phases / actions)
-- ---------------------------------------------------------------------------

/-- Canonical fish record produced by `getFish`. -/
structure FishDef where
  id : Id
  name : String
  maxStamina : ℚ
  pressure : ℚ
  xp : ℚ
deriving DecidableEq

/-- `getFish`: looks up an enemy and normalizes legacy fields.  A missing
enemy id yields the hardcoded fallback fish (the TS function is total and
never returns `undefined`, which makes the `if (!fish)` guards at its call
sites unreachable). -/
def getFish (content : ContentBundle) (enemyId : Id) : FishDef :=
  match alookup content.enemies enemyId with
  | none => { id := enemyId, name := enemyId, maxStamina := 80, pressure := 10, xp := 10 }
  | some e =>
    let maxStamina :=
      match e.stamina with
      | some v => v
      | none => match e.maxHp with | some v => v | none => 80
    let pressure :=
      match e.pressure with
      | some v => v
      | none => match e.attack with | some v => v | none => 10
    { id := e.id, name := e.name, maxStamina := maxStamina, pressure := pressure, xp := e.xp }

/-- `phaseForStamina`: fish phase from the remaining stamina ratio. -/
def phaseForStamina (stamina maxS : ℚ) : FishPhase :=
  if maxS ≤ 0 then .EXHAUSTED
  else
    let r := stamina / maxS
    if r > 0.66 then .AGGRESSIVE
    else if r > 0.33 then .DEFENSIVE
    else .EXHAUSTED

/-- `phaseTuning`: `(pressureMult, reelEffMult)` for the fish's phase. -/
def phaseTuning (state : GameState) (phase : FishPhase) : ℚ × ℚ :=
  let handling := clamp (0 + ((state.player.level : ℚ) - 1) * 0.012) 0 0.12
  let aggressivePressure := 1.2 - handling
  match phase with
  | .AGGRESSIVE => (aggressivePressure, 0.9)
  | .DEFENSIVE => (0.95, 0.8)
  | .EXHAUSTED => (0.7, 1.25)

/-- Canonical intent kinds. -/
inductive IntentKind
  | reel | brace | adjust | technique
deriving DecidableEq

/-- Canonical, content-shape-independent interpretation of an action. -/
structure Intent where
  id : Id
  label : String
  kind : IntentKind
  staminaTake : ℚ
  tension : ℚ
  brace : ℚ
  control : ℚ
deriving DecidableEq

/-- `interpretAction`: canonical fishing fields if present, otherwise the
legacy `attack`/`utility` mapping. -/
def interpretAction (a : ActionDef) : Intent :=
  let explicitKind : Option IntentKind :=
    match a.kind with
    | .reel => some .reel
    | .brace => some .brace
    | .adjust => some .adjust
    | .technique => some .technique
    | _ => none
  match explicitKind with
  | some k =>
    { id := a.id, label := a.label, kind := k,
      staminaTake := max 0 (jsRound (-(a.staminaDelta.getD 0))),
      tension := |a.tensionDelta.getD 0|,
      brace := if k = .brace then 14 else 0,
      control := if k = .adjust then 8 else 0 }
  | none =>
    match a.kind with
    | .attack =>
      let dmg := a.damage.getD 0
      let strain := a.focusCost.getD 0
      { id := a.id, label := a.label, kind := .reel,
        staminaTake := max 0 dmg, tension := 12 + jsRound (strain * 0.7),
        brace := 0, control := 0 }
    | _ =>
      let gain := a.focusGain.getD 0
      let heal := a.heal.getD 0
      let relief := 10 + jsRound (gain * 0.35) + jsRound (heal * 0.4)
      let kind := if gain ≥ 14 then IntentKind.adjust else IntentKind.brace
      { id := a.id, label := a.label, kind := kind,
        staminaTake := 0, tension := relief,
        brace := if kind = .brace then 18 else 0,
        control := if kind = .adjust then 10 else 0 }

-- ---------------------------------------------------------------------------
-- PROGRESSION MATH (engine.ts: stats / point totals / derived values)
-- ---------------------------------------------------------------------------

def defaultStats : PlayerStats :=
  { control := 0, power := 0, durability := 0, precision := 0, tactics := 0 }

def sumStats (stats : PlayerStats) : ℚ :=
  stats.control + stats.power + stats.durability + stats.precision + stats.tactics

/-- `sumSkillRanks`: only positive numeric ranks are counted. -/
def sumSkillRanks (ranks : List (Id × ℚ)) : ℚ :=
  ranks.foldl (fun n r => if r.2 > 0 then n + r.2 else n) 0

def totalStatPointsForLevel (level : ℤ) : ℚ := ((max 0 level : ℤ) : ℚ)

def totalSkillPointsForLevel (level : ℤ) : ℚ := ((max 0 level : ℤ) : ℚ)

/-- `deriveMaxLineIntegrity`: max line integrity from level and durability. -/
def deriveMaxLineIntegrity (content : ContentBundle) (level : ℤ) (durability : ℚ) : ℚ :=
  let t := content.tuning.bind (·.progression)
  let base := (t.bind (·.baseLineIntegrity)).getD 100
  let perLevel := (t.bind (·.lineIntegrityPerLevel)).getD 2
  let perDur := (t.bind (·.lineIntegrityPerDurability)).getD 6
  clamp (base + perLevel * max 0 ((level : ℚ) - 1) + perDur * max 0 durability) 60 260

def levelBraceBonus (level : ℤ) : ℚ :=
  clamp (0 + ((level : ℚ) - 1) * 0.01) 0 0.12

/-- `xpForLevel`: `max(10, floor(base * growth^max(0, level-1)))`. -/
def xpForLevel (content : ContentBundle) (level : ℤ) : ℚ :=
  let base := (content.xpCurve.map (·.base)).getD 40
  let growth := (content.xpCurve.map (·.growth)).getD 1.22
  max 10 (jsFloor (base * growth ^ (max 0 (level - 1)).toNat))

/-- `firstRegionId`: first key of `content.regions`. -/
def firstRegionId (content : ContentBundle) : Option Id :=
  content.regions.head?.map (·.1)

-- ---------------------------------------------------------------------------
-- SKILLS AND RIG MODS (engine.ts: data-driven aggregation)
-- ---------------------------------------------------------------------------

/-- `computeKnownActions`: base actions plus all actions granted by ACTIVE
skills at rank > 0, as an insertion-ordered set. -/
def computeKnownActions (content : ContentBundle) (baseActions : List Id)
    (skillRanks : List (Id × ℚ)) : List Id :=
  let out := baseActions.foldl insertUnique []
  skillRanks.foldl (fun (acc : List Id) (sr : Id × ℚ) =>
    if sr.2 ≤ 0 then acc
    else
      match content.skills.bind (fun sk => alookup sk sr.1) with
      | none => acc
      | some s =>
        if s.type ≠ .ACTIVE then acc
        else s.grantsActions.foldl insertUnique acc) out

/-- Aggregated rig-mod totals. -/
structure RigTotals where
  statBonus : List (StatKey × ℚ)
  fishTensionMult : ℚ
  integrityWearMult : ℚ
deriving DecidableEq

/-- `collectRigTotals`: fold installed rig mods into totals. -/
def collectRigTotals (content : ContentBundle) (state : GameState) : RigTotals :=
  let init : RigTotals := { statBonus := [], fishTensionMult := 1, integrityWearMult := 1 }
  let mods := state.temporaryMods.getD []
  if mods.isEmpty then init
  else
    mods.foldl (fun totals id =>
      match content.rigMods.bind (fun defs => alookup defs id) with
      | none => totals
      | some md =>
        md.effects.foldl (fun totals e =>
          match e with
          | .STAT_BONUS stat add =>
            let prev := (alookup totals.statBonus stat).getD 0
            { totals with statBonus := aset totals.statBonus stat (prev + add) }
          | .FISH_TENSION_MULT mult =>
            { totals with fishTensionMult := totals.fishTensionMult * clamp mult 0.25 2.5 }
          | .INTEGRITY_WEAR_MULT mult =>
            { totals with integrityWearMult := totals.integrityWearMult * clamp mult 0.25 2.5 }) totals) init

/-- `effectiveStats`: base stats plus rig-mod stat bonuses, clamped to
`[0, 99]` for exactly the stats that have a bonus entry. -/
def effectiveStats (content : ContentBundle) (state : GameState) : PlayerStats :=
  let rig := collectRigTotals content state
  rig.statBonus.foldl (fun out kb =>
    statSet out kb.1 (clamp (statGet out kb.1 + kb.2) 0 99)) state.player.stats

/-- Aggregated skill-effect totals read by the combat resolver. -/
structure EffectTotals where
  integrityWearMult : ℚ
  fishTensionMult : ℚ
  braceBonus : ℚ
  braceReliefBonus : ℚ
  controlOnBrace : ℚ
  staminaBleedExhausted : ℚ
  controlOnHighTensionThreshold : Option ℚ
  controlOnHighTensionGain : ℚ
  negateWearOnPerfect : Bool
deriving DecidableEq

/-- `collectEffects`: fold every learned skill's typed effects into totals,
then fold rig-mod multipliers in. -/
def collectEffects (content : ContentBundle) (state : GameState) : EffectTotals :=
  let totals0 : EffectTotals :=
    { integrityWearMult := 1, fishTensionMult := 1, braceBonus := 0,
      braceReliefBonus := 0, controlOnBrace := 0, staminaBleedExhausted := 0,
      controlOnHighTensionThreshold := none, controlOnHighTensionGain := 0,
      negateWearOnPerfect := false }
  let skills := content.skills.getD []
  let t := state.player.skillRanks.foldl (fun totals sr =>
    let rank := sr.2
    if rank ≤ 0 then totals
    else
      match alookup skills sr.1 with
      | none => totals
      | some d =>
        d.effects.foldl (fun totals e =>
          match e with
          | .INTEGRITY_WEAR_MULT m =>
            { totals with integrityWearMult := totals.integrityWearMult * max 0.25 (1 - m * rank) }
          | .FISH_TENSION_MULT m =>
            { totals with fishTensionMult := totals.fishTensionMult * max 0.4 (1 - m * rank) }
          | .BRACE_BONUS b r =>
            { totals with braceBonus := totals.braceBonus + b * rank,
                          braceReliefBonus := totals.braceReliefBonus + r * rank }
          | .CONTROL_ON_BRACE c =>
            { totals with controlOnBrace := totals.controlOnBrace + c * rank }
          | .STAMINA_BLEED_EXHAUSTED b =>
            { totals with staminaBleedExhausted := totals.staminaBleedExhausted + b * rank }
          | .CONTROL_ON_HIGH_TENSION th c =>
            { totals with
              controlOnHighTensionThreshold :=
                some (match totals.controlOnHighTensionThreshold with
                      | none => th
                      | some t0 => min t0 th),
              controlOnHighTensionGain := totals.controlOnHighTensionGain + c * rank }
          | .NEGATE_WEAR_ON_PERFECT =>
            { totals with negateWearOnPerfect := true }) totals) totals0
  let rig := collectRigTotals content state
  { t with integrityWearMult := t.integrityWearMult * rig.integrityWearMult,
           fishTensionMult := t.fishTensionMult * rig.fishTensionMult }

-- ---------------------------------------------------------------------------
-- TENSION / INTEGRITY RULES (engine.ts)
-- ---------------------------------------------------------------------------

/-- `safeTensionLimit`: the per-turn safe tension band. -/
def safeTensionLimit (content : ContentBundle) (state : GameState) : ℚ :=
  let combatControl := (state.combat.map (·.control)).getD 0
  let statControl := (effectiveStats content state).control
  clamp (58 + jsRound (combatControl * 0.35) + jsRound (statControl * 1.15)) 50 86

/-- `applyTension`: add a tension delta, clamped to `[0, maxTension]`. -/
def applyTension (state : GameState) (delta : ℚ) (reason : Option String) : GameState :=
  let nextTension := clamp (state.player.tension + delta) 0 state.player.maxTension
  { state with
    player := { state.player with tension := nextTension },
    lastEvent := some (.tension delta nextTension reason) }

/-- The wear amount computed by `applyIntegrityWear` when tension exceeds the
safe limit: `clamp(round(baseWear * max(0.2, durabilityMult * wearMult)), 1, 8)`. -/
def wearAmount (content : ContentBundle) (state : GameState) : ℚ :=
  let safe := safeTensionLimit content state
  let over := max 0 (state.player.tension - safe)
  let baseWear := clamp (jsCeil (over / 10)) 1 8
  let stats := effectiveStats content state
  let effects := collectEffects content state
  let durabilityMult := clamp (1 - stats.durability * 0.03) 0.65 1
  let wearMult := max 0.2 (durabilityMult * effects.integrityWearMult)
  clamp (jsRound (baseWear * wearMult)) 1 8

/-- `applyIntegrityWear`: skip when the one-turn negate flag is set or when
tension does not exceed the safe limit; otherwise subtract `wearAmount`,
clamped into `[0, maxLineIntegrity]`. -/
def applyIntegrityWear (content : ContentBundle) (state : GameState)
    (reason : Option String) : GameState :=
  if (state.combat.bind (·.skill)).bind (·.negateWearThisTurn) = some true then state
  else
    let safe := safeTensionLimit content state
    let over := max 0 (state.player.tension - safe)
    if over ≤ 0 then state
    else
      let wear := wearAmount content state
      let nextIntegrity := clamp (state.player.lineIntegrity - wear) 0 state.player.maxLineIntegrity
      { state with
        player := { state.player with lineIntegrity := nextIntegrity },
        lastEvent := some (.integrity (-wear) nextIntegrity (some (reason.getD "Line strain"))) }

-- ---------------------------------------------------------------------------
-- XP / LEVELING (engine.ts: grantXp)
-- ---------------------------------------------------------------------------

/-- `xpForLevel` is always at least 10. -/
theorem xpForLevel_ge_ten (content : ContentBundle) (level : ℤ) :
    (10 : ℚ) ≤ xpForLevel content level :=
  le_max_left _ _

/-- The `while (xp >= xpToNext)` loop body of `grantXp`: subtract, increment
level, recompute the curve, grant +1 stat and +1 skill point, recompute max
line integrity and fully heal. -/
def grantXpGo (content : ContentBundle) (state : GameState) (xp : ℚ) (level : ℤ)
    (xpToNext : ℚ) : GameState :=
  if xpToNext ≤ xp then
    grantXpGo content
      { state with
        player :=
          { state.player with
            level := level + 1
            maxLineIntegrity := deriveMaxLineIntegrity content (level + 1) state.player.stats.durability
            lineIntegrity := deriveMaxLineIntegrity content (level + 1) state.player.stats.durability
            xp := xp - xpToNext
            xpToNext := xpForLevel content (level + 1)
            unspentStatPoints := state.player.unspentStatPoints + 1
            unspentSkillPoints := state.player.unspentSkillPoints + 1 }
        lastEvent := some (.levelUp (level + 1)) }
      (xp - xpToNext) (level + 1) (xpForLevel content (level + 1))
  else
    { state with player := { state.player with xp := xp, xpToNext := xpToNext } }
termination_by ⌈xp⌉.toNat + (if 10 ≤ xpToNext then 0 else ⌈|xpToNext|⌉.toNat + 11)
decreasing_by
  have hten : (10 : ℚ) ≤ xpForLevel content (level + 1) := xpForLevel_ge_ten content (level + 1)
  by_cases h10 : (10 : ℚ) ≤ xpToNext
  · simp only [h10, if_true, if_pos, hten, add_zero]
    have hx : (10 : ℚ) ≤ xp := le_trans h10 (by assumption)
    have hc1 : ⌈xp - xpToNext⌉ ≤ ⌈xp⌉ - 10 := by
      have h1 : ⌈xp - xpToNext⌉ ≤ ⌈xp - 10⌉ := Int.ceil_le_ceil (by linarith)
      have h2 : ⌈xp - (10 : ℚ)⌉ = ⌈xp⌉ - 10 := by
        rw [show (10 : ℚ) = ((10 : ℤ) : ℚ) by norm_num, Int.ceil_sub_int]
      omega
    have hc2 : (10 : ℤ) ≤ ⌈xp⌉ := by
      have h3 : ((10 : ℤ) : ℚ) ≤ xp := by exact_mod_cast hx
      have h4 := Int.ceil_le_ceil h3
      simpa using h4
    omega
  · simp only [h10, if_false, if_neg, hten, if_pos, add_zero]
    have hc1 : ⌈xp - xpToNext⌉ ≤ ⌈xp⌉ + ⌈|xpToNext|⌉ := by
      have h1 : ⌈xp - xpToNext⌉ ≤ ⌈xp + |xpToNext|⌉ := by
        apply Int.ceil_le_ceil
        have h2 := neg_abs_le xpToNext
        linarith
      have h3 := Int.ceil_add_le xp |xpToNext|
      omega
    have hc3 : (0 : ℤ) ≤ ⌈|xpToNext|⌉ := by positivity
    have hc4 : (⌈xp - xpToNext⌉).toNat ≤ ⌈xp⌉.toNat + ⌈|xpToNext|⌉.toNat := by omega
    omega

/-- `grantXp`: add xp, run the level-up loop, write back xp and the curve. -/
def grantXp (content : ContentBundle) (state : GameState) (amount : ℚ) : GameState :=
  grantXpGo content state (state.player.xp + amount) state.player.level state.player.xpToNext

-- ---------------------------------------------------------------------------
-- COMBAT LOOP (engine.ts: fishTurn / resolveWin / resolveLose / applyAction /
-- useItem)
-- ---------------------------------------------------------------------------

/-- `resolveWin`: clear combat, relieve tension multiplicatively to
`max(0, round(tension * 0.35))`, grant the fish's xp. -/
def resolveWin (content : ContentBundle) (fish : FishDef) (state : GameState) : GameState :=
  let gained := fish.xp
  grantXp content
    { state with
      combat := none
      player := { state.player with tension := max 0 (jsRound (state.player.tension * 0.35)) }
      lastEvent := some (.xp gained) }
    gained

/-- `resolveLose`: line break; flag the defeat prompt. -/
def resolveLose (state : GameState) : GameState :=
  { state with
    combat := state.combat.map (fun cb => { cb with outcome := some .DEFEAT_PROMPT })
    lastEvent := some .defeatPrompt }

/-- `fishTurn`: the fish's automatic response — optional exhausted-phase
stamina bleed, pressure as tension gain (mitigated by brace, control and the
aggregated tension multiplier), the reactive high-tension control grant,
brace reset and turn advance, integrity wear, one-turn flag clearing, and the
line-break check. -/
def fishBleedStep (effects : EffectTotals) (cb : Combat) (state : GameState) :
    Combat × GameState :=
  if cb.fishPhase = .EXHAUSTED ∧ effects.staminaBleedExhausted > 0 then
    let bleed := min cb.fishStamina effects.staminaBleedExhausted
    if bleed > 0 then
      let cbB : Combat := { cb with fishStamina := max 0 (cb.fishStamina - bleed) }
      (cbB,
       { state with
         combat := some cbB
         lastEvent := some (.stamina (-bleed) cb.fishPhase (some "Pressure bleed")) })
    else (cb, state)
  else (cb, state)

def fishReactStep (effects : EffectTotals) (cb1 : Combat) (next1 : GameState) :
    Combat × GameState :=
  match effects.controlOnHighTensionThreshold with
  | none => (cb1, next1)
  | some thresh =>
    let already := (cb1.skill.bind (·.highTensionTriggeredTurn)) = some cb1.turn
    if ¬ already ∧ next1.player.tension ≥ thresh then
      let cbC : Combat :=
        { cb1 with
          control := clamp (cb1.control + effects.controlOnHighTensionGain) 0 60
          skill := some { negateWearThisTurn := cb1.skill.bind (·.negateWearThisTurn),
                          highTensionTriggeredTurn := some cb1.turn } }
      (cbC,
       { next1 with
         combat := some cbC
         lastEvent := some (.log "You find a clutch pocket of control.") })
    else (cb1, next1)

/-- Tail of the fish turn: integrity wear, one-turn flag clearing, and the
line-break check. -/
def fishWearPhase (content : ContentBundle) (next3 : GameState) : GameState :=
  let next4 := applyIntegrityWear content next3 (some "Over-tension")
  let next5 :=
    if (next4.combat.bind (·.skill)).bind (·.negateWearThisTurn) = some true then
      { next4 with
        combat := next4.combat.map (fun cb =>
          { cb with skill := cb.skill.map (fun fl => { fl with negateWearThisTurn := some false }) }) }
    else next4
  if next5.player.lineIntegrity ≤ 0 then resolveLose next5 else next5

def fishTurn (content : ContentBundle) (fish : FishDef) (state : GameState) : GameState :=
  match state.combat with
  | none => state
  | some cb =>
    let pressureMult := (phaseTuning state cb.fishPhase).1
    let stats := effectiveStats content state
    let effects := collectEffects content state
    let bleedPair := fishBleedStep effects cb state
    let cb1 := bleedPair.1
    let st1 := bleedPair.2
    let basePressure := jsRound (fish.pressure * pressureMult)
    let mitigated := max 0 (basePressure - jsRound cb1.brace)
    let controlMult := clamp (1 - stats.control * 0.018) 0.72 1
    let flowMult := clamp (1 - cb1.control * 0.008) 0.7 1
    let tensionMult := effects.fishTensionMult
    let tensionDelta := jsRound (mitigated * controlMult * flowMult * tensionMult)
    let next1 := applyTension st1 tensionDelta (some (fish.name ++ " pulls"))
    let reactPair := fishReactStep effects cb1 next1
    let cb2 := reactPair.1
    let next2 := reactPair.2
    let cb3 : Combat := { cb2 with brace := 0, phase := .PLAYER, turn := cb2.turn + 1 }
    fishWearPhase content { next2 with combat := some cb3 }

/-- Meta-loop objective tracking: a PERFECT timing during a contract fight
increments the contract's perfect counter (does not affect combat rules). -/
def perfectContractStep (state : GameState) (timing : Option TimingGrade) : GameState :=
  if timing = some .PERFECT then
    match state.contract with
    | some c =>
      if c.phase = .FIGHT then
        { state with contract := some { c with stats := { c.stats with perfectCount := c.stats.perfectCount + 1 } } }
      else state
    | none => state
  else state

/-- Fish phase recomputation after the player's action, with a phase-change
event exactly when the phase differs. -/
def phaseRecalcStep (next3 : GameState) : GameState :=
  match next3.combat with
  | none => next3
  | some cbX =>
    let newPhase := phaseForStamina cbX.fishStamina cbX.maxFishStamina
    if newPhase ≠ cbX.fishPhase then
      { next3 with
        combat := some { cbX with fishPhase := newPhase }
        lastEvent := some (.phaseChange newPhase) }
    else
      { next3 with combat := some { cbX with fishPhase := newPhase } }

/-- The player-phase effects of `applyAction` (engine.ts lines 732–833):
timing amplification, contract perfect-count tracking, the
reel/technique/brace/adjust branch, and the fish-phase recomputation.
`applyAction` calls this when combat is active, on the player's turn, with a
resolved action. -/
def applyPlayerIntent (content : ContentBundle) (state : GameState) (cb : Combat)
    (action : ActionDef) (timing : Option TimingGrade) : GameState :=
  let intent := interpretAction action
  let reelEffMult := (phaseTuning state cb.fishPhase).2
  let stats := effectiveStats content state
  let effects := collectEffects content state
  let staminaMult : ℚ :=
    match timing with
    | some .MISS => 0.15 + min 0.08 (stats.precision * 0.004)
    | some .GOOD => 1.0 + min 0.12 (stats.precision * 0.006)
    | some .PERFECT => 1.35 + min 0.28 (stats.precision * 0.02)
    | none => 1
  let tensionBonus : ℚ :=
    match timing with
    | some .MISS => max 5 (14 - jsRound (stats.precision * 0.6) - jsRound (stats.control * 0.25))
    | _ => 0
  let tensionRelief : ℚ :=
    match timing with
    | some .PERFECT => 6 + jsRound (stats.precision * 0.35)
    | _ => 0
  let next0 : GameState := perfectContractStep state timing
  let next3 : GameState :=
    match intent.kind with
    | .reel | .technique =>
      let baseStamina := max 0 intent.staminaTake
      let powerMult := 1 + stats.power * (if intent.kind = .technique then 0.05 else 0.035)
      let take := jsRound (baseStamina * reelEffMult * staminaMult * powerMult)
      let cbR : Combat := { cb with fishStamina := max 0 (cb.fishStamina - take) }
      let next1 : GameState :=
        { next0 with
          combat := some cbR
          lastEvent := some (.stamina (-take) cb.fishPhase (some intent.label)) }
      let overSafe := max 0 (next1.player.tension - safeTensionLimit content next1)
      let powerRisk := if overSafe > 0 then jsRound (stats.power * 0.35) else 0
      let next2 := applyTension next1 (intent.tension + tensionBonus + powerRisk - tensionRelief) (some "Reel")
      if timing = some .PERFECT ∧ effects.negateWearOnPerfect then
        { next2 with
          combat := next2.combat.map (fun c =>
            { c with skill := some { negateWearThisTurn := some true,
                                     highTensionTriggeredTurn := (c.skill.bind (·.highTensionTriggeredTurn)) } }) }
      else next2
    | .brace =>
      let relief := jsRound (intent.tension * (1 + stats.tactics * 0.03 + levelBraceBonus state.player.level) + effects.braceReliefBonus)
      let nextB := applyTension next0 (-relief) (some "Brace")
      { nextB with
        combat := some
          { cb with
            brace := clamp (cb.brace + jsRound (intent.brace * (1 + stats.tactics * 0.04 + levelBraceBonus state.player.level) + effects.braceBonus)) 0 60
            control := clamp (cb.control + effects.controlOnBrace) 0 60 }
        lastEvent := some (.log "You brace and steady the line.") }
    | .adjust =>
      let relief := jsRound (intent.tension * (1 + stats.control * 0.01))
      let nextA := applyTension next0 (-relief) (some "Adjust")
      { nextA with
        combat := some { cb with control := clamp (cb.control + jsRound (intent.control * (1 + stats.tactics * 0.05))) 0 60 }
        lastEvent := some (.log "You adjust your angle and regain control.") }
  phaseRecalcStep next3

/-- `applyAction`: validate combat/turn, resolve the action, apply the player
effects, check the win condition, and otherwise hand over to the fish. -/
def applyAction (content : ContentBundle) (state : GameState) (actionId : Id)
    (timing : Option TimingGrade) : GameState :=
  match state.combat with
  | none => { state with lastEvent := some (.log "No combat active.") }
  | some cb =>
    if cb.outcome = some .DEFEAT_PROMPT then state
    else if cb.phase ≠ .PLAYER then state
    else
      match alookup content.actions actionId with
      | none => { state with lastEvent := some (.log ("Missing action: " ++ actionId)) }
      | some action =>
        let fish := getFish content cb.enemyId
        let next := applyPlayerIntent content state cb action timing
        match next.combat with
        | some cbW =>
          if cbW.fishStamina ≤ 0 then resolveWin content fish next
          else fishTurn content fish { next with combat := some { cbW with phase := .FISH } }
        | none => next

/-- Tail of `useItem`: the fish reacts after the item if in combat on the
player's phase and not in the defeat prompt. -/
def itemFishResponse (content : ContentBundle) (next1 : GameState) : GameState :=
  match next1.combat with
  | some cb =>
    if cb.phase = .PLAYER ∧ cb.outcome ≠ some .DEFEAT_PROMPT then
      fishTurn content (getFish content cb.enemyId) { next1 with combat := some { cb with phase := .FISH } }
    else next1
  | none => next1

/-- `item.integrityRestore ?? item.heal ?? 0`. -/
def itemIntegrityRestore (item : Item) : ℚ :=
  match item.integrityRestore with
  | some v => v
  | none => match item.heal with | some v => v | none => 0

/-- `useItem`: apply the item's restore/relief and decrement inventory (the
only guards are ownership and existence), then let the fish respond when in
combat on the player's phase and not in the defeat prompt. -/
def useItem (content : ContentBundle) (state : GameState) (itemId : Id) : GameState :=
  let count := (alookup state.player.inventory itemId).getD 0
  if count ≤ 0 then { state with lastEvent := some (.log "No item left.") }
  else
    match alookup content.items itemId with
    | none => { state with lastEvent := some (.log ("Missing item: " ++ itemId)) }
    | some item =>
      let integrityRestore := itemIntegrityRestore item
      let tensionReduce := item.tensionReduce.getD 0
      let newIntegrity := clamp (state.player.lineIntegrity + integrityRestore) 0 state.player.maxLineIntegrity
      let next0 : GameState :=
        { state with
          player := { state.player with
                      lineIntegrity := newIntegrity
                      inventory := aset state.player.inventory itemId (count - 1) }
          lastEvent :=
            if integrityRestore > 0 then some (.integrity integrityRestore newIntegrity (some item.label))
            else some (.log "Used item.") }
      let next1 := if tensionReduce ≠ 0 then applyTension next0 (-tensionReduce) (some item.label) else next0
      itemFishResponse content next1

-- ---------------------------------------------------------------------------
-- ENCOUNTERS (engine.ts: startFight / startFightAgainstEnemy)
-- ---------------------------------------------------------------------------

/-- The loop of `pickWeighted`: subtract weights until the roll is spent. -/
def pickWeightedGo : List EncounterEntry → ℚ → Option Id
  | [], _ => none
  | e :: rest, roll =>
    let roll' := roll - max 0 e.weight
    if roll' ≤ 0 then some e.enemyId else pickWeightedGo rest roll'

/-- `pickWeighted` with the `Math.random()` sample `u` injected. -/
def pickWeighted (entries : List EncounterEntry) (u : ℚ) : Id :=
  let total := entries.foldl (fun a e => a + max 0 e.weight) 0
  if total ≤ 0 then (entries.head?.map (·.enemyId)).getD "scrapjaw"
  else
    match pickWeightedGo entries (u * total) with
    | some id => id
    | none => (entries.getLast?.map (·.enemyId)).getD "scrapjaw"

/-- The fresh combat record built on spawn (shared by both start functions;
the object literal has no `skill` field, so the flags are absent). -/
def freshCombat (regionId enemyId : Id) (maxFishStamina : ℚ) : Combat :=
  { enemyId := enemyId
    fishStamina := maxFishStamina
    maxFishStamina := maxFishStamina
    fishPhase := phaseForStamina maxFishStamina maxFishStamina
    phase := .PLAYER
    turn := 1
    brace := 0
    control := 0
    skill := none
    lastSpawn := some { regionId := regionId, enemyId := enemyId }
    outcome := some .NONE }

/-- `startFight`: random encounter in the current region (`u` is the injected
`Math.random()` sample).  The source's `if (!fish)` guard after `getFish` is
unreachable — `getFish` is total — so no missing-enemy branch exists here. -/
def startFight (content : ContentBundle) (state : GameState) (u : ℚ) : GameState :=
  let regionId := state.progress.regionId
  match alookup content.regions regionId with
  | none => { state with lastEvent := some (.log ("Missing region: " ++ regionId)) }
  | some r =>
    if (state.player.level : ℚ) < r.requiredLevel then
      { state with lastEvent := some (.log "Region locked: level +") }
    else
      let enemyId := pickWeighted r.encounterPool u
      let fish := getFish content enemyId
      { state with
        combat := some (freshCombat regionId enemyId fish.maxStamina)
        lastEvent := some (.spawn regionId enemyId) }

/-- `startFightAgainstEnemy`: start a specific encounter (used by contracts).
As in `startFight`, the `if (!fish)` guard is unreachable. -/
def startFightAgainstEnemy (content : ContentBundle) (state : GameState)
    (regionId enemyId : Id) : GameState :=
  match alookup content.regions regionId with
  | none => { state with lastEvent := some (.log ("Missing region: " ++ regionId)) }
  | some r =>
    if (state.player.level : ℚ) < r.requiredLevel then
      { state with lastEvent := some (.log "Region locked: level +") }
    else
      let fish := getFish content enemyId
      { state with
        progress := { regionId := regionId }
        combat := some (freshCombat regionId enemyId fish.maxStamina)
        lastEvent := some (.spawn regionId enemyId) }

/-- `retryFight`: reset the fish from `lastSpawn` and restore integrity.  The
source checks only that a `lastSpawn` record exists (it never looks at
`outcome`), and its `if (!fish)` guard is unreachable. -/
def retryFight (content : ContentBundle) (state : GameState) : GameState :=
  match state.combat.bind (·.lastSpawn) with
  | none => { state with lastEvent := some (.log "No spawn to retry.") }
  | some spawn =>
    let fish := getFish content spawn.enemyId
    { state with
      player := { state.player with
                  tension := clamp state.player.tension 0 state.player.maxTension
                  lineIntegrity := state.player.maxLineIntegrity }
      combat := some
        { enemyId := spawn.enemyId
          fishStamina := fish.maxStamina
          maxFishStamina := fish.maxStamina
          fishPhase := phaseForStamina fish.maxStamina fish.maxStamina
          phase := .PLAYER
          turn := 1
          brace := 0
          control := 0
          skill := none
          lastSpawn := some spawn
          outcome := some .NONE }
      lastEvent := some (.log "Retry!") }

/-- `flee`: end combat and hard-reset tension to 0. -/
def flee (state : GameState) : GameState :=
  { state with
    combat := none
    player := { state.player with tension := 0 }
    lastEvent := some .fled }

-- ---------------------------------------------------------------------------
-- BUILD (engine.ts: spendStatPoint / unlockOrUpgradeSkill / makeNewRunState)
-- ---------------------------------------------------------------------------

/-- `spendStatPoint`: spend one point, recompute max line integrity (the
durability effect) and clamp current integrity into the new range. -/
def spendStatPoint (content : ContentBundle) (state : GameState) (stat : StatKey) : GameState :=
  if state.player.unspentStatPoints ≤ 0 then
    { state with lastEvent := some (.log "No stat points.") }
  else
    let nextStats := statSet state.player.stats stat (statGet state.player.stats stat + 1)
    let nextMax := deriveMaxLineIntegrity content state.player.level nextStats.durability
    { state with
      player := { state.player with
                  stats := nextStats
                  unspentStatPoints := state.player.unspentStatPoints - 1
                  maxLineIntegrity := nextMax
                  lineIntegrity := clamp state.player.lineIntegrity 0 nextMax }
      lastEvent := some (.log "+1 stat") }

/-- `unlockOrUpgradeSkill`: gate on existence, level, points, prerequisites
and max rank; on success increment the rank, spend the point, and recompute
the known-action set. -/
def unlockOrUpgradeSkill (content : ContentBundle) (state : GameState) (skillId : Id) : GameState :=
  match content.skills.bind (fun sk => alookup sk skillId) with
  | none => { state with lastEvent := some (.log ("Missing skill: " ++ skillId)) }
  | some skill =>
    if (state.player.level : ℚ) < skill.requiredLevel then
      { state with lastEvent := some (.log "Requires level +") }
    else if state.player.unspentSkillPoints ≤ 0 then
      { state with lastEvent := some (.log "No skill points.") }
    else
      match skill.prereq.find? (fun p => (alookup state.player.skillRanks p).getD 0 ≤ 0) with
      | some p => { state with lastEvent := some (.log ("Missing prerequisite: " ++ p)) }
      | none =>
        let currentRank := (alookup state.player.skillRanks skillId).getD 0
        if currentRank ≥ skill.maxRank then
          { state with lastEvent := some (.log "Max rank.") }
        else
          let nextRanks := aset state.player.skillRanks skillId (currentRank + 1)
          let knownActions := computeKnownActions content state.player.knownActions nextRanks
          { state with
            player := { state.player with
                        skillRanks := nextRanks
                        unspentSkillPoints := state.player.unspentSkillPoints - 1
                        knownActions := knownActions }
            lastEvent := some (.log ("Skill unlocked: " ++ skill.label)) }

/-- `makeNewRunState`: the new-run constructor. -/
def makeNewRunState (content : ContentBundle) : GameState :=
  let regionId := (firstRegionId content).getD "shore_1"
  let knownActions := (content.loadout.bind (·.startActions)).getD ["strike", "hookset", "breathe"]
  let inventory := (content.loadout.bind (·.startItems)).getD [("small_potion", 2)]
  let level : ℤ := 1
  let stats := defaultStats
  { contentVersion := some (content.contentVersion.getD "0.1.0")
    progress := { regionId := regionId }
    player :=
      { level := level
        xp := 0
        xpToNext := xpForLevel content level
        stats := stats
        unspentStatPoints := totalStatPointsForLevel level
        skillRanks := []
        unspentSkillPoints := totalSkillPointsForLevel level
        tension := 10
        maxTension := 100
        lineIntegrity := deriveMaxLineIntegrity content level stats.durability
        maxLineIntegrity := deriveMaxLineIntegrity content level stats.durability
        knownActions := computeKnownActions content knownActions []
        inventory := inventory }
    currency := some (max 0 (jsFloor ((content.economy.bind (·.startingCurrency)).getD 0)))
    temporaryMods := some []
    contract := none
    combat := none
    lastEvent := some (.log "New run started.") }

-- ---------------------------------------------------------------------------
-- META LOOP (engine.ts: startContract / spawnContractEncounter)
-- ---------------------------------------------------------------------------

/-- `randInt` with the `Math.random()` sample `u` injected. -/
def randInt (lo hi u : ℚ) : ℚ :=
  if hi ≤ lo then lo else jsFloor (u * (hi - lo + 1)) + lo

/-- `spawnContractEncounter`: start the fight for the current encounter of the
active contract (the list is read, never re-rolled). -/
def spawnContractEncounter (content : ContentBundle) (state : GameState) : GameState :=
  match state.contract with
  | none => { state with lastEvent := some (.log "No active contract.") }
  | some c =>
    if state.combat.isSome then state
    else
      let enc := if c.index < 0 then none else c.encounters[c.index.toNat]?
      match enc with
      | none => { state with lastEvent := some (.log "No encounter available.") }
      | some enc =>
        startFightAgainstEnemy content
          { state with
            progress := { regionId := enc.regionId }
            contract := some { c with phase := .FIGHT, lastReward := none } }
          enc.regionId enc.enemyId

/-- `startContract`: validate, pre-roll the whole encounter sequence from the
injected random stream `rolls` (count from `rolls 0`, the i-th encounter from
`rolls (i+1)`), store it verbatim, and spawn the first encounter.
`Array.from({length: count})` truncates a fractional count toward zero. -/
def startContract (content : ContentBundle) (state : GameState) (contractId : Id)
    (rolls : ℕ → ℚ) : GameState :=
  match content.contracts.bind (fun cs => alookup cs contractId) with
  | none => { state with lastEvent := some (.log ("Missing contract: " ++ contractId)) }
  | some cdef =>
    if state.combat.isSome then { state with lastEvent := some (.log "Finish the current fight first.") }
    else if state.contract.isSome then { state with lastEvent := some (.log "Contract already active.") }
    else
      match alookup content.regions cdef.regionId with
      | none => { state with lastEvent := some (.log ("Missing region: " ++ cdef.regionId)) }
      | some region =>
        if (state.player.level : ℚ) < region.requiredLevel then
          { state with lastEvent := some (.log "Locked. Requires level +") }
        else
          let pool :=
            match cdef.encounterPool with
            | some p => if p.length ≠ 0 then p else region.encounterPool
            | none => region.encounterPool
          if pool.length ≤ 0 then
            { state with lastEvent := some (.log "Contract encounter pool is empty.") }
          else
            let lo := clampNumber (cdef.encounterCount.map (·.min)) 1 12 2
            let hi := clampNumber (cdef.encounterCount.map (·.max)) lo 12 (max lo 5)
            let count := randInt lo hi (rolls 0)
            let encounters := (List.range (⌊count⌋).toNat).map (fun i =>
              EncounterRef.mk cdef.regionId (pickWeighted pool (rolls (i + 1))))
            let next : GameState :=
              { state with
                progress := { regionId := cdef.regionId }
                currency := some (match state.currency with
                  | some c => c
                  | none => max 0 (jsFloor ((content.economy.bind (·.startingCurrency)).getD 0)))
                temporaryMods := some (state.temporaryMods.getD [])
                contract := some
                  { contractId := cdef.id
                    regionId := cdef.regionId
                    encounters := encounters
                    index := 0
                    phase := .FIGHT
                    stats := { perfectCount := 0, fightsWon := 0 }
                    earned := { currency := 0 }
                    lastReward := none } }
            spawnContractEncounter content next

-- ---------------------------------------------------------------------------
-- STATE NORMALIZATION / MIGRATION (engine.ts: normalizeState)
-- ---------------------------------------------------------------------------

/-- Raw (possibly legacy or partial) player stats, as read from an arbitrary
saved snapshot.  A field that is absent or not a number is `none`. -/
structure RawStats where
  control : Option ℚ
  power : Option ℚ
  durability : Option ℚ
  precision : Option ℚ
  tactics : Option ℚ
deriving DecidableEq

/-- Raw player record of a saved snapshot. -/
structure RawPlayer where
  level : Option ℤ
  xp : Option ℚ
  xpToNext : Option ℚ
  stats : Option RawStats
  unspentStatPoints : Option ℚ
  skillRanks : Option (List (Id × ℚ))
  unspentSkillPoints : Option ℚ
  maxTension : Option ℚ
  focus : Option ℚ
  tension : Option ℚ
  maxLineIntegrity : Option ℚ
  hp : Option ℚ
  maxHp : Option ℚ
  lineIntegrity : Option ℚ
  knownActions : Option (List Id)
  inventory : Option (List (Id × ℚ))
deriving DecidableEq

/-- Raw combat turn owner: old saves may say `ENEMY` instead of `FISH`. -/
inductive RawTurnPhase
  | PLAYER | FISH | ENEMY
deriving DecidableEq

/-- Raw combat record of a saved snapshot. -/
structure RawCombat where
  enemyId : Id
  fishStamina : Option ℚ
  maxFishStamina : Option ℚ
  enemyHp : Option ℚ
  fishPhase : Option FishPhase
  phase : Option RawTurnPhase
  turn : Option ℤ
  brace : Option ℚ
  control : Option ℚ
  skill : Option SkillFlags
  lastSpawn : Option EncounterRef
  outcome : Option Outcome
deriving DecidableEq

/-- Raw contract encounter row: either id may be missing or a non-string. -/
structure RawEncounter where
  regionId : Option Id
  enemyId : Option Id
deriving DecidableEq

structure RawContractStats where
  perfectCount : Option ℚ
  fightsWon : Option ℚ
deriving DecidableEq

structure RawEarned where
  currency : Option ℚ
deriving DecidableEq

/-- Raw contract record of a saved snapshot. -/
structure RawContract where
  contractId : Option Id
  regionId : Option Id
  encounters : List RawEncounter
  index : Option ℤ
  phase : Option ContractPhase
  stats : Option RawContractStats
  earned : Option RawEarned
  lastReward : Option ContractReward
deriving DecidableEq

/-- Arbitrary saved snapshot (the `any`-typed argument of `normalizeState`). -/
structure RawState where
  contentVersion : Option String
  progressRegionId : Option Id
  player : Option RawPlayer
  currency : Option ℚ
  temporaryMods : Option (List Id)
  contract : Option RawContract
  combat : Option RawCombat
  lastEvent : Option GameEvent
deriving DecidableEq

/-- `normalizeStats`: clamp each raw stat into `[0, 99]`, defaulting to 0. -/
def normalizeStats (s : Option RawStats) : PlayerStats :=
  match s with
  | none => defaultStats
  | some s =>
    { control := clampNumber s.control 0 99 0
      power := clampNumber s.power 0 99 0
      durability := clampNumber s.durability 0 99 0
      precision := clampNumber s.precision 0 99 0
      tactics := clampNumber s.tactics 0 99 0 }

/-- The per-row encounter normalizer inside `normalizeState`'s contract
branch: a row keeps its enemy id only when it is a nonempty string (JS string
truthiness); a missing region id falls back to the contract's. -/
def normalizeEncounter (contractRegionId : Id) (e : RawEncounter) : Option EncounterRef :=
  match e.enemyId with
  | none => none
  | some eid =>
    if eid = "" then none
    else some (EncounterRef.mk (e.regionId.getD contractRegionId) eid)

/-- `normalizeState`: total migration of an arbitrary saved snapshot into the
current shape.  JS string truthiness matters for the contract branch: an empty
`contractId` or an empty encounter `enemyId` is falsy and is dropped. -/
def normalizeState (content : ContentBundle) (s : RawState) : GameState :=
  let contentVersion :=
    match s.contentVersion with
    | some v => if v.trim ≠ "" then v else content.contentVersion.getD "0.1.0"
    | none => content.contentVersion.getD "0.1.0"
  let regionId :=
    match s.progressRegionId with
    | some r => r
    | none => (firstRegionId content).getD "shore_1"
  let level := (s.player.bind (·.level)).getD 1
  let xp := (s.player.bind (·.xp)).getD 0
  let xpToNext :=
    match s.player.bind (·.xpToNext) with
    | some v => v
    | none => xpForLevel content level
  let stats := normalizeStats (s.player.bind (·.stats))
  let totalStatPoints := totalStatPointsForLevel level
  let spentStatPoints := sumStats stats
  let unspentStatPoints :=
    clampNumber ((s.player.bind (·.unspentStatPoints)).orElse (fun _ => some (totalStatPoints - spentStatPoints)))
      0 totalStatPoints (max 0 (totalStatPoints - spentStatPoints))
  let skillRanks := (s.player.bind (·.skillRanks)).getD []
  let totalSkillPoints := totalSkillPointsForLevel level
  let spentSkillPoints := sumSkillRanks skillRanks
  let unspentSkillPoints :=
    clampNumber ((s.player.bind (·.unspentSkillPoints)).orElse (fun _ => some (totalSkillPoints - spentSkillPoints)))
      0 totalSkillPoints (max 0 (totalSkillPoints - spentSkillPoints))
  let maxTension := (s.player.bind (·.maxTension)).getD 100
  let tensionFromLegacy := (s.player.bind (·.focus)).map (fun f => jsRound (f / 40 * 35))
  let tension := clampNumber ((s.player.bind (·.tension)).orElse (fun _ => tensionFromLegacy)) 0 maxTension 12
  let derivedMaxLineIntegrity := deriveMaxLineIntegrity content level stats.durability
  let maxLineIntegrity := (s.player.bind (·.maxLineIntegrity)).getD derivedMaxLineIntegrity
  let normalizedMaxLineIntegrity := derivedMaxLineIntegrity
  let integrityFromLegacy := (s.player.bind (·.hp)).map (fun hp =>
    jsRound (hp / max 1 ((s.player.bind (·.maxHp)).getD 80) * maxLineIntegrity))
  let lineIntegrity :=
    clampNumber ((s.player.bind (·.lineIntegrity)).orElse (fun _ => integrityFromLegacy))
      0 normalizedMaxLineIntegrity normalizedMaxLineIntegrity
  let baseActions :=
    match s.player.bind (·.knownActions) with
    | some l => l
    | none => (content.loadout.bind (·.startActions)).getD ["strike", "hookset", "breathe"]
  let knownActions := computeKnownActions content baseActions skillRanks
  let inventory :=
    match s.player.bind (·.inventory) with
    | some inv => inv
    | none => (content.loadout.bind (·.startItems)).getD [("small_potion", 2)]
  let combat : Option Combat := s.combat.map (fun sc =>
    let fish := getFish content sc.enemyId
    let maxFishStamina := sc.maxFishStamina.getD fish.maxStamina
    let fishStaminaLegacy := sc.enemyHp
    let fishStamina := clampNumber (sc.fishStamina.orElse (fun _ => fishStaminaLegacy)) 0 maxFishStamina maxFishStamina
    let fishPhase := sc.fishPhase.getD (phaseForStamina fishStamina maxFishStamina)
    { enemyId := sc.enemyId
      fishStamina := fishStamina
      maxFishStamina := maxFishStamina
      fishPhase := fishPhase
      phase :=
        match sc.phase with
        | some .ENEMY => .FISH
        | some .FISH => .FISH
        | some .PLAYER => .PLAYER
        | none => .PLAYER
      turn := sc.turn.getD 1
      brace := sc.brace.getD 0
      control := sc.control.getD 0
      skill := sc.skill
      lastSpawn := sc.lastSpawn
      outcome := some (sc.outcome.getD .NONE) })
  let currency :=
    clampNumber s.currency 0 999999
      (match content.economy.bind (·.startingCurrency) with
       | some v => max 0 (jsFloor v)
       | none => 0)
  let temporaryMods := s.temporaryMods.getD []
  let contract : Option ContractState := s.contract.bind (fun rc =>
    let contractRegionId := rc.regionId.getD regionId
    let encounters := rc.encounters.filterMap (normalizeEncounter contractRegionId)
    let index := clampNumberI rc.index 0 (max 0 ((encounters.length : ℤ) - 1)) 0
    let phase :=
      match rc.phase with
      | some .CAMP => ContractPhase.CAMP
      | some .SUMMARY => ContractPhase.SUMMARY
      | _ => ContractPhase.FIGHT
    let cstats : ContractStats :=
      { perfectCount := clampNumber (rc.stats.bind (·.perfectCount)) 0 9999 0
        fightsWon := clampNumber (rc.stats.bind (·.fightsWon)) 0 9999 0 }
    let earned : ContractEarned := { currency := clampNumber (rc.earned.bind (·.currency)) 0 999999 0 }
    match rc.contractId with
    | none => none
    | some cid =>
      if cid = "" then none
      else if encounters.length ≤ 0 then none
      else some
        { contractId := cid
          regionId := contractRegionId
          encounters := encounters
          index := index
          phase := phase
          stats := cstats
          earned := earned
          lastReward := rc.lastReward })
  { contentVersion := some contentVersion
    progress := { regionId := regionId }
    player :=
      { level := level
        xp := xp
        xpToNext := xpToNext
        stats := stats
        unspentStatPoints := unspentStatPoints
        skillRanks := skillRanks
        unspentSkillPoints := unspentSkillPoints
        tension := tension
        maxTension := maxTension
        lineIntegrity := lineIntegrity
        maxLineIntegrity := normalizedMaxLineIntegrity
        knownActions := knownActions
        inventory := inventory }
    currency := some currency
    temporaryMods := some temporaryMods
    contract := contract
    combat := combat
    lastEvent := s.lastEvent }

/-- The raw image of a current-shape snapshot after a persist/reload round
trip: every stored field comes back present (JSON keeps them all). -/
def toRaw (s : GameState) : RawState :=
  { contentVersion := s.contentVersion
    progressRegionId := some s.progress.regionId
    player := some
      { level := some s.player.level
        xp := some s.player.xp
        xpToNext := some s.player.xpToNext
        stats := some
          { control := some s.player.stats.control
            power := some s.player.stats.power
            durability := some s.player.stats.durability
            precision := some s.player.stats.precision
            tactics := some s.player.stats.tactics }
        unspentStatPoints := some s.player.unspentStatPoints
        skillRanks := some s.player.skillRanks
        unspentSkillPoints := some s.player.unspentSkillPoints
        maxTension := some s.player.maxTension
        focus := none
        tension := some s.player.tension
        maxLineIntegrity := some s.player.maxLineIntegrity
        hp := none
        maxHp := none
        lineIntegrity := some s.player.lineIntegrity
        knownActions := some s.player.knownActions
        inventory := some s.player.inventory }
    currency := s.currency
    temporaryMods := s.temporaryMods
    contract := s.contract.map (fun c =>
      { contractId := some c.contractId
        regionId := some c.regionId
        encounters := c.encounters.map (fun e => { regionId := some e.regionId, enemyId := some e.enemyId })
        index := some c.index
        phase := some c.phase
        stats := some { perfectCount := some c.stats.perfectCount, fightsWon := some c.stats.fightsWon }
        earned := some { currency := some c.earned.currency }
        lastReward := c.lastReward })
    combat := s.combat.map (fun cb =>
      { enemyId := cb.enemyId
        fishStamina := some cb.fishStamina
        maxFishStamina := some cb.maxFishStamina
        enemyHp := none
        fishPhase := some cb.fishPhase
        phase := some (match cb.phase with | .PLAYER => RawTurnPhase.PLAYER | .FISH => RawTurnPhase.FISH)
        turn := some cb.turn
        brace := some cb.brace
        control := some cb.control
        skill := cb.skill
        lastSpawn := cb.lastSpawn
        outcome := cb.outcome })
    lastEvent := s.lastEvent }

-- ---------------------------------------------------------------------------
-- CONCRETE FIXTURES (for witnesses and counterexamples)
-- ---------------------------------------------------------------------------

/-- A reel action: `staminaDelta -20`, `tensionDelta 12`. -/
def strikeAction : ActionDef :=
  { id := "strike", label := "Strike", kind := .reel,
    staminaDelta := some (-20), tensionDelta := some 12, integrityDelta := none,
    damage := none, heal := none, focusCost := none, focusGain := none }

/-- The sample item: restores 10 integrity. -/
def potionItem : Item :=
  { id := "potion", label := "Potion", integrityRestore := some 10,
    tensionReduce := none, heal := none }

/-- A small sample content bundle: one region, one enemy, one action, one
item, one skill, one contract. -/
def sampleContent : ContentBundle :=
  { contentVersion := some "0.1.0"
    xpCurve := none
    tuning := none
    regions := [("reef", { id := "reef", name := "Reef", requiredLevel := 1,
                           encounterPool := [{ enemyId := "carp", weight := 1 }] })]
    enemies := [("carp", { id := "carp", name := "Carp", xp := 5,
                           stamina := some 80, pressure := some 10, maxHp := none, attack := none })]
    actions := [("strike", strikeAction)]
    skills := some [("grit", { id := "grit", label := "Grit", type := .PASSIVE,
                               requiredLevel := 1, maxRank := 2, prereq := [],
                               grantsActions := [], effects := [] })]
    items := [("potion", potionItem)]
    loadout := none
    economy := none
    rigMods := none
    contracts := some [("bounty", { id := "bounty", label := "Bounty", regionId := "reef",
                                    encounterCount := some { min := 2, max := 2 },
                                    encounterPool := none })] }

/-- An active combat against the carp, low fish stamina, player to act. -/
def sampleCombat : Combat :=
  { enemyId := "carp", fishStamina := 10, maxFishStamina := 80, fishPhase := .EXHAUSTED,
    phase := .PLAYER, turn := 1, brace := 0, control := 0, skill := none,
    lastSpawn := some { regionId := "reef", enemyId := "carp" }, outcome := some .NONE }

/-- A simple level-1 player. -/
def samplePlayer : Player :=
  { level := 1, xp := 0, xpToNext := 40, stats := defaultStats,
    unspentStatPoints := 1, skillRanks := [("grit", 2)], unspentSkillPoints := 1,
    tension := 10, maxTension := 100, lineIntegrity := 100, maxLineIntegrity := 100,
    knownActions := ["strike"], inventory := [("potion", 1)] }

/-- A snapshot in the middle of the sample fight. -/
def sampleState : GameState :=
  { contentVersion := some "0.1.0"
    progress := { regionId := "reef" }
    player := samplePlayer
    currency := some 0
    temporaryMods := some []
    contract := none
    combat := some sampleCombat
    lastEvent := none }

-- ---------------------------------------------------------------------------
-- BASIC LEMMAS
-- ---------------------------------------------------------------------------

theorem clamp_left_le (v lo hi : ℚ) : lo ≤ clamp v lo hi := le_max_left _ _

theorem clamp_le_right (v lo hi : ℚ) (h : lo ≤ hi) : clamp v lo hi ≤ hi :=
  max_le h (min_le_left _ _)

/-- The resource invariant at the player level: tension and line integrity
stay inside their `[0, max]` ranges. -/
def InvP (p : Player) : Prop :=
  0 ≤ p.tension ∧ p.tension ≤ p.maxTension ∧
  0 ≤ p.lineIntegrity ∧ p.lineIntegrity ≤ p.maxLineIntegrity

/-- The resource invariant of claim C2. -/
def Inv (s : GameState) : Prop := InvP s.player

theorem inv_applyTension (s : GameState) (d : ℚ) (r : Option String) (h : Inv s) :
    Inv (applyTension s d r) := by
  obtain ⟨h1, h2, h3, h4⟩ := h
  exact ⟨clamp_left_le _ _ _, clamp_le_right _ _ _ (le_trans h1 h2), h3, h4⟩

theorem inv_applyIntegrityWear (content : ContentBundle) (s : GameState)
    (r : Option String) (h : Inv s) : Inv (applyIntegrityWear content s r) := by
  obtain ⟨h1, h2, h3, h4⟩ := h
  unfold applyIntegrityWear
  split
  · exact ⟨h1, h2, h3, h4⟩
  · dsimp only
    split
    · exact ⟨h1, h2, h3, h4⟩
    · exact ⟨h1, h2, clamp_left_le _ _ _, clamp_le_right _ _ _ (le_trans h3 h4)⟩

theorem inv_resolveLose (s : GameState) (h : Inv s) : Inv (resolveLose s) := h

/-- The invariant only reads the player record, so any two states with the
same player satisfy it together (used to move through combat-only updates). -/
theorem inv_of_player_eq (s1 s2 : GameState) (hp : s2.player = s1.player) (h : Inv s1) :
    Inv s2 := by
  unfold Inv
  rw [hp]
  exact h

/-- Multiplicative tension relief stays inside the tension range:
`max 0 (round (t * 0.35)) ≤ M` whenever `0 ≤ t ≤ M`. -/
theorem tension_relief_le (t M : ℚ) (h0 : 0 ≤ t) (h1 : t ≤ M) :
    max 0 (jsRound (t * 0.35)) ≤ M := by
  have hM : (0 : ℚ) ≤ M := le_trans h0 h1
  rcases le_or_lt 1 t with h | h
  · have hle : jsRound (t * 0.35) ≤ t := by
      have hfl : ((⌊t * 0.35 + 1/2⌋ : ℤ) : ℚ) ≤ t * 0.35 + 1/2 := Int.floor_le _
      have : t * 0.35 + 1/2 ≤ t := by nlinarith
      unfold jsRound
      linarith
    exact max_le hM (le_trans hle h1)
  · have hle : jsRound (t * 0.35) ≤ 0 := by
      have hlt : t * 0.35 + 1/2 < 1 := by nlinarith
      have hfl : ⌊t * 0.35 + 1/2⌋ < (1 : ℤ) := by
        rw [Int.floor_lt]
        exact_mod_cast hlt
      unfold jsRound
      have : ⌊t * 0.35 + 1/2⌋ ≤ 0 := by omega
      exact_mod_cast this
    exact max_le hM (le_trans hle hM)

-- ---------------------------------------------------------------------------
-- GRANT-XP LOOP FACTS
-- ---------------------------------------------------------------------------

/-- Everything the claims need to know about the level-up loop: levels only
go up, each crossed boundary adds exactly one stat point and one skill point,
all other state is untouched, and whenever at least one level was gained the
final snapshot is fully healed at the max integrity derived from the final
level and the (unchanged) durability, with the xp curve recomputed. -/
theorem grantXpGo_spec (content : ContentBundle) (st : GameState) (xp : ℚ) (level : ℤ)
    (t : ℚ) (hlvl : st.player.level = level) :
    level ≤ (grantXpGo content st xp level t).player.level ∧
    (grantXpGo content st xp level t).player.unspentStatPoints =
      st.player.unspentStatPoints + (((grantXpGo content st xp level t).player.level - level : ℤ) : ℚ) ∧
    (grantXpGo content st xp level t).player.unspentSkillPoints =
      st.player.unspentSkillPoints + (((grantXpGo content st xp level t).player.level - level : ℤ) : ℚ) ∧
    (grantXpGo content st xp level t).player.stats = st.player.stats ∧
    (grantXpGo content st xp level t).player.tension = st.player.tension ∧
    (grantXpGo content st xp level t).player.maxTension = st.player.maxTension ∧
    (grantXpGo content st xp level t).combat = st.combat ∧
    (grantXpGo content st xp level t).contract = st.contract ∧
    (grantXpGo content st xp level t).currency = st.currency ∧
    (grantXpGo content st xp level t).temporaryMods = st.temporaryMods ∧
    (grantXpGo content st xp level t).progress = st.progress ∧
    (grantXpGo content st xp level t).player.knownActions = st.player.knownActions ∧
    (grantXpGo content st xp level t).player.inventory = st.player.inventory ∧
    (grantXpGo content st xp level t).player.skillRanks = st.player.skillRanks ∧
    ((grantXpGo content st xp level t).player.level = level →
      (grantXpGo content st xp level t).player.lineIntegrity = st.player.lineIntegrity ∧
      (grantXpGo content st xp level t).player.maxLineIntegrity = st.player.maxLineIntegrity ∧
      (grantXpGo content st xp level t).player.xpToNext = t) ∧
    (level < (grantXpGo content st xp level t).player.level →
      (grantXpGo content st xp level t).player.xpToNext =
        xpForLevel content (grantXpGo content st xp level t).player.level ∧
      (grantXpGo content st xp level t).player.maxLineIntegrity =
        deriveMaxLineIntegrity content (grantXpGo content st xp level t).player.level
          st.player.stats.durability ∧
      (grantXpGo content st xp level t).player.lineIntegrity =
        (grantXpGo content st xp level t).player.maxLineIntegrity) := by
  induction st, xp, level, t using grantXpGo.induct content with
  | case1 st xp level t h ih =>
    rw [grantXpGo, if_pos h]
    specialize ih rfl
    obtain ⟨i1, i2, i3, i4, i5, i6, i7, i8, i9, i10, i11, i12, i13, i14, i15, i16⟩ := ih
    refine ⟨by omega, ?_, ?_, i4, i5, i6, i7, i8, i9, i10, i11, i12, i13, i14, ?_, ?_⟩
    · rw [i2]; push_cast; ring
    · rw [i3]; push_cast; ring
    · intro heq
      omega
    · intro hlt
      rcases lt_or_eq_of_le i1 with hlt2 | heq2
      · obtain ⟨j1, j2, j3⟩ := i16 hlt2
        exact ⟨j1, j2, j3⟩
      · obtain ⟨j1, j2, j3⟩ := i15 heq2.symm
        refine ⟨?_, ?_, ?_⟩
        · rw [j3, ← heq2]
        · rw [j2, ← heq2]
        · rw [j1, j2]
  | case2 st xp level t h =>
    rw [grantXpGo, if_neg h]
    subst hlvl
    refine ⟨le_refl _, by push_cast; ring, by push_cast; ring, rfl, rfl, rfl, rfl, rfl, rfl,
      rfl, rfl, rfl, rfl, rfl, fun _ => ⟨rfl, rfl, rfl⟩, fun hlt => absurd hlt (lt_irrefl _)⟩

theorem deriveMaxLineIntegrity_ge (content : ContentBundle) (level : ℤ) (dur : ℚ) :
    (60 : ℚ) ≤ deriveMaxLineIntegrity content level dur := by
  unfold deriveMaxLineIntegrity
  exact clamp_left_le _ _ _

theorem inv_grantXp (content : ContentBundle) (s : GameState) (amount : ℚ) (h : Inv s) :
    Inv (grantXp content s amount) := by
  obtain ⟨h1, h2, h3, h4⟩ := h
  obtain ⟨i1, i2, i3, i4, i5, i6, _, _, _, _, _, _, _, _, i15, i16⟩ :=
    grantXpGo_spec content s (s.player.xp + amount) s.player.level s.player.xpToNext rfl
  unfold grantXp
  rcases lt_or_eq_of_le i1 with hlt | heq
  · obtain ⟨_, j2, j3⟩ := i16 hlt
    refine ⟨by rw [i5]; exact h1, by rw [i5, i6]; exact h2, ?_, ?_⟩
    · rw [j3, j2]
      have := deriveMaxLineIntegrity_ge content
        (grantXpGo content s (s.player.xp + amount) s.player.level s.player.xpToNext).player.level
        s.player.stats.durability
      linarith
    · rw [j3]
  · obtain ⟨j1, j2, _⟩ := i15 heq.symm
    exact ⟨by rw [i5]; exact h1, by rw [i5, i6]; exact h2, by rw [j1]; exact h3,
      by rw [j1, j2]; exact h4⟩

theorem inv_resolveWin (content : ContentBundle) (fish : FishDef) (s : GameState)
    (h : Inv s) : Inv (resolveWin content fish s) := by
  obtain ⟨h1, h2, h3, h4⟩ := h
  unfold resolveWin
  apply inv_grantXp
  exact ⟨le_max_left _ _, tension_relief_le _ _ h1 h2, h3, h4⟩

theorem inv_fishBleedStep (effects : EffectTotals) (cb : Combat) (s : GameState)
    (h : Inv s) : Inv (fishBleedStep effects cb s).2 := by
  unfold fishBleedStep
  split
  · dsimp only
    split
    · exact h
    · exact h
  · exact h

theorem inv_fishReactStep (effects : EffectTotals) (cb1 : Combat) (s : GameState)
    (h : Inv s) : Inv (fishReactStep effects cb1 s).2 := by
  unfold fishReactStep
  split
  · exact h
  · dsimp only
    split
    · exact h
    · exact h

theorem inv_fishWearPhase (content : ContentBundle) (s : GameState) (h : Inv s) :
    Inv (fishWearPhase content s) := by
  unfold fishWearPhase
  have h4 : Inv (applyIntegrityWear content s (some "Over-tension")) :=
    inv_applyIntegrityWear content s _ h
  dsimp only
  split
  · apply inv_resolveLose
    split
    · exact h4
    · exact h4
  · split
    · exact h4
    · exact h4

theorem inv_fishTurn (content : ContentBundle) (fish : FishDef) (s : GameState)
    (h : Inv s) : Inv (fishTurn content fish s) := by
  unfold fishTurn
  split
  · exact h
  · exact inv_fishWearPhase content _
      (inv_fishReactStep _ _ _ (inv_applyTension _ _ _ (inv_fishBleedStep _ _ _ h)))

theorem inv_perfectContractStep (s : GameState) (t : Option TimingGrade) (h : Inv s) :
    Inv (perfectContractStep s t) := by
  unfold perfectContractStep
  split
  · split
    · split
      · exact h
      · exact h
    · exact h
  · exact h

theorem inv_phaseRecalcStep (s : GameState) (h : Inv s) : Inv (phaseRecalcStep s) := by
  unfold phaseRecalcStep
  split
  · exact h
  · dsimp only
    split
    · exact h
    · exact h

theorem inv_applyPlayerIntent (content : ContentBundle) (s : GameState) (cb : Combat)
    (a : ActionDef) (t : Option TimingGrade) (h : Inv s) :
    Inv (applyPlayerIntent content s cb a t) := by
  obtain ⟨x1, x2, x3, x4⟩ := inv_perfectContractStep s t h
  unfold applyPlayerIntent
  apply inv_phaseRecalcStep
  split
  · dsimp only
    split
    · exact ⟨clamp_left_le _ _ _, clamp_le_right _ _ _ (le_trans x1 x2), x3, x4⟩
    · exact ⟨clamp_left_le _ _ _, clamp_le_right _ _ _ (le_trans x1 x2), x3, x4⟩
  · dsimp only
    split
    · exact ⟨clamp_left_le _ _ _, clamp_le_right _ _ _ (le_trans x1 x2), x3, x4⟩
    · exact ⟨clamp_left_le _ _ _, clamp_le_right _ _ _ (le_trans x1 x2), x3, x4⟩
  · exact ⟨clamp_left_le _ _ _, clamp_le_right _ _ _ (le_trans x1 x2), x3, x4⟩
  · exact ⟨clamp_left_le _ _ _, clamp_le_right _ _ _ (le_trans x1 x2), x3, x4⟩

theorem inv_applyAction (content : ContentBundle) (s : GameState) (actionId : Id)
    (t : Option TimingGrade) (h : Inv s) : Inv (applyAction content s actionId t) := by
  unfold applyAction
  split
  · exact h
  · dsimp only
    split
    · exact h
    · split
      · exact h
      · split
        · exact h
        · split
          · split
            · exact inv_resolveWin _ _ _ (inv_applyPlayerIntent _ _ _ _ _ h)
            · exact inv_fishTurn _ _ _
                (inv_of_player_eq _ _ rfl (inv_applyPlayerIntent _ _ _ _ _ h))
          · exact inv_applyPlayerIntent _ _ _ _ _ h

theorem inv_itemFishResponse (content : ContentBundle) (s : GameState) (h : Inv s) :
    Inv (itemFishResponse content s) := by
  unfold itemFishResponse
  split
  · split
    · exact inv_fishTurn _ _ _ h
    · exact h
  · exact h

theorem inv_useItem (content : ContentBundle) (s : GameState) (itemId : Id) (h : Inv s) :
    Inv (useItem content s itemId) := by
  obtain ⟨h1, h2, h3, h4⟩ := h
  unfold useItem
  dsimp only
  split
  · exact ⟨h1, h2, h3, h4⟩
  · split
    · exact ⟨h1, h2, h3, h4⟩
    · apply inv_itemFishResponse
      split
      · exact inv_applyTension _ _ _
          ⟨h1, h2, clamp_left_le _ _ _, clamp_le_right _ _ _ (le_trans h3 h4)⟩
      · exact ⟨h1, h2, clamp_left_le _ _ _, clamp_le_right _ _ _ (le_trans h3 h4)⟩

theorem inv_retryFight (content : ContentBundle) (s : GameState) (h : Inv s) :
    Inv (retryFight content s) := by
  obtain ⟨h1, h2, h3, h4⟩ := h
  unfold retryFight
  split
  · exact ⟨h1, h2, h3, h4⟩
  · exact ⟨clamp_left_le _ _ _, clamp_le_right _ _ _ (le_trans h1 h2),
      le_trans h3 h4, le_refl _⟩

theorem inv_flee (s : GameState) (h : Inv s) : Inv (flee s) := by
  obtain ⟨h1, h2, h3, h4⟩ := h
  exact ⟨le_refl 0, le_trans h1 h2, h3, h4⟩

theorem inv_spendStatPoint (content : ContentBundle) (s : GameState) (stat : StatKey)
    (h : Inv s) : Inv (spendStatPoint content s stat) := by
  obtain ⟨h1, h2, h3, h4⟩ := h
  unfold spendStatPoint
  split
  · exact ⟨h1, h2, h3, h4⟩
  · refine ⟨h1, h2, clamp_left_le _ _ _, clamp_le_right _ _ _ ?_⟩
    have := deriveMaxLineIntegrity_ge content s.player.level
      (statSet s.player.stats stat (statGet s.player.stats stat + 1)).durability
    linarith

theorem inv_makeNewRunState (content : ContentBundle) : Inv (makeNewRunState content) := by
  unfold makeNewRunState
  refine ⟨by norm_num, by norm_num, ?_, le_refl _⟩
  have := deriveMaxLineIntegrity_ge content 1 defaultStats.durability
  dsimp only
  linarith

theorem inv_normalize_key (v : Option ℚ) (M : ℚ) (hM : 0 ≤ M) (h12 : v = none → 12 ≤ M) :
    0 ≤ clampNumber v 0 M 12 ∧ clampNumber v 0 M 12 ≤ M := by
  cases v with
  | none =>
    refine ⟨by norm_num [clampNumber], ?_⟩
    simpa [clampNumber] using h12 rfl
  | some x => exact ⟨clamp_left_le _ _ _, clamp_le_right _ _ _ hM⟩

theorem inv_normalize_keyM (v : Option ℚ) (M : ℚ) (hM : 0 ≤ M) :
    0 ≤ clampNumber v 0 M M ∧ clampNumber v 0 M M ≤ M := by
  cases v with
  | none => exact ⟨hM, le_refl M⟩
  | some x => exact ⟨clamp_left_le _ _ _, clamp_le_right _ _ _ hM⟩

/-- The condition on a raw snapshot under which migration restores the
tension invariant: a sane `maxTension` (nonnegative, and at least the
hardcoded tension fallback 12 when neither a `tension` nor a legacy `focus`
number is present). -/
def SafeRawTension (s : RawState) : Prop :=
  0 ≤ (s.player.bind (·.maxTension)).getD 100 ∧
  (((s.player.bind (·.tension)).orElse
      (fun _ => (s.player.bind (·.focus)).map (fun f => jsRound (f / 40 * 35)))) = none →
    12 ≤ (s.player.bind (·.maxTension)).getD 100)

theorem inv_normalizeState (content : ContentBundle) (raw : RawState)
    (hc : SafeRawTension raw) : Inv (normalizeState content raw) := by
  obtain ⟨hc1, hc2⟩ := hc
  have hderive := deriveMaxLineIntegrity_ge content ((raw.player.bind (·.level)).getD 1)
    (normalizeStats (raw.player.bind (·.stats))).durability
  have hd0 : (0 : ℚ) ≤ deriveMaxLineIntegrity content ((raw.player.bind (·.level)).getD 1)
      (normalizeStats (raw.player.bind (·.stats))).durability := by linarith
  obtain ⟨k1, k2⟩ := inv_normalize_key
    ((raw.player.bind (·.tension)).orElse
      (fun _ => (raw.player.bind (·.focus)).map (fun f => jsRound (f / 40 * 35))))
    ((raw.player.bind (·.maxTension)).getD 100) hc1 hc2
  obtain ⟨m1, m2⟩ := inv_normalize_keyM
    ((raw.player.bind (·.lineIntegrity)).orElse
      (fun _ => (raw.player.bind (·.hp)).map (fun hp =>
        jsRound (hp / max 1 ((raw.player.bind (·.maxHp)).getD 80) *
          ((raw.player.bind (·.maxLineIntegrity)).getD
            (deriveMaxLineIntegrity content ((raw.player.bind (·.level)).getD 1)
              (normalizeStats (raw.player.bind (·.stats))).durability))))))
    (deriveMaxLineIntegrity content ((raw.player.bind (·.level)).getD 1)
      (normalizeStats (raw.player.bind (·.stats))).durability) hd0
  exact ⟨k1, k2, m1, m2⟩

-- ---------------------------------------------------------------------------
-- SMALL PROJECTION FACTS
-- ---------------------------------------------------------------------------

theorem grantXp_combat (content : ContentBundle) (s : GameState) (amt : ℚ) :
    (grantXp content s amt).combat = s.combat := by
  obtain ⟨_, _, _, _, _, _, hc, _⟩ :=
    grantXpGo_spec content s (s.player.xp + amt) s.player.level s.player.xpToNext rfl
  exact hc

theorem grantXp_tension (content : ContentBundle) (s : GameState) (amt : ℚ) :
    (grantXp content s amt).player.tension = s.player.tension := by
  obtain ⟨_, _, _, _, ht, _⟩ :=
    grantXpGo_spec content s (s.player.xp + amt) s.player.level s.player.xpToNext rfl
  exact ht

theorem resolveWin_combat (content : ContentBundle) (fish : FishDef) (s : GameState) :
    (resolveWin content fish s).combat = none := by
  unfold resolveWin
  rw [grantXp_combat]

theorem resolveWin_tension (content : ContentBundle) (fish : FishDef) (s : GameState) :
    (resolveWin content fish s).player.tension = max 0 (jsRound (s.player.tension * 0.35)) := by
  unfold resolveWin
  rw [grantXp_tension]

theorem applyIntegrityWear_combat (content : ContentBundle) (s : GameState)
    (r : Option String) : (applyIntegrityWear content s r).combat = s.combat := by
  unfold applyIntegrityWear
  split
  · rfl
  · dsimp only
    split
    · rfl
    · rfl

-- ---------------------------------------------------------------------------
-- CLAIM C2 (corrected)
-- ---------------------------------------------------------------------------

/-- A raw saved snapshot carrying only a small numeric `maxTension` (5) and no
tension/focus field: migration falls back to tension 12 without clamping. -/
def rawBadTension : RawState :=
  { contentVersion := none
    progressRegionId := none
    player := some
      { level := none, xp := none, xpToNext := none, stats := none,
        unspentStatPoints := none, skillRanks := none, unspentSkillPoints := none,
        maxTension := some 5, focus := none, tension := none,
        maxLineIntegrity := none, hp := none, maxHp := none, lineIntegrity := none,
        knownActions := none, inventory := none }
    currency := none
    temporaryMods := none
    contract := none
    combat := none
    lastEvent := none }

/-- C2, counterexample: `normalizeState` is one of the listed transitions, yet
on a raw snapshot whose `player.maxTension` is the number 5 and whose tension
and legacy focus fields are absent, the migrated snapshot has tension 12 >
maxTension 5 — the claimed `tension ≤ maxTension` fails.  (The `clampNumber`
fallback is returned unclamped.) -/
theorem claim2_counterexample : ¬ Inv (normalizeState sampleContent rawBadTension) := by
  intro h
  obtain ⟨_, h2, _, _⟩ := h
  norm_num [normalizeState, rawBadTension, sampleContent, clampNumber, clamp, Inv, InvP] at h2

/-- C2 (amended): every engine transition preserves
`0 ≤ tension ≤ maxTension ∧ 0 ≤ lineIntegrity ≤ maxLineIntegrity`
(`makeNewRunState` establishes it outright), and `normalizeState` establishes
it for every raw snapshot satisfying `SafeRawTension` — i.e. whose
`maxTension`, when present as a number, is nonnegative and, when neither a
`tension` nor a legacy `focus` number is stored, at least the hardcoded
fallback 12.  The unconditional claim fails only on `normalizeState`, as the
counterexample shows. -/
theorem claim2_resource_invariants :
    (∀ content s a t, Inv s → Inv (applyAction content s a t)) ∧
    (∀ content s i, Inv s → Inv (useItem content s i)) ∧
    (∀ content fish s, Inv s → Inv (fishTurn content fish s)) ∧
    (∀ content fish s, Inv s → Inv (resolveWin content fish s)) ∧
    (∀ content s amt, Inv s → Inv (grantXp content s amt)) ∧
    (∀ content s, Inv s → Inv (retryFight content s)) ∧
    (∀ s, Inv s → Inv (flee s)) ∧
    (∀ content s k, Inv s → Inv (spendStatPoint content s k)) ∧
    (∀ content, Inv (makeNewRunState content)) ∧
    (∀ content raw, SafeRawTension raw → Inv (normalizeState content raw)) :=
  ⟨fun content s a t h => inv_applyAction content s a t h,
   fun content s i h => inv_useItem content s i h,
   fun content fish s h => inv_fishTurn content fish s h,
   fun content fish s h => inv_resolveWin content fish s h,
   fun content s amt h => inv_grantXp content s amt h,
   fun content s h => inv_retryFight content s h,
   fun s h => inv_flee s h,
   fun content s k h => inv_spendStatPoint content s k h,
   fun content => inv_makeNewRunState content,
   fun content raw h => inv_normalizeState content raw h⟩

/-- C2, witness: the invariant holds of the sample snapshot and is preserved
by a concrete `applyAction` call on it. -/
theorem claim2_witness :
    Inv sampleState ∧ Inv (applyAction sampleContent sampleState "strike" none) := by
  have hs : Inv sampleState := by
    refine ⟨?_, ?_, ?_, ?_⟩ <;> norm_num [sampleState, samplePlayer, Inv, InvP]
  exact ⟨hs, claim2_resource_invariants.1 sampleContent sampleState "strike" none hs⟩

-- ---------------------------------------------------------------------------
-- CLAIM C3 (confirmed)
-- ---------------------------------------------------------------------------

/-- C3: with an active combat, applying any action when the outcome is
DEFEAT_PROMPT or when it is not the player's turn returns the snapshot
entirely unchanged (even the log event) — in particular deep-equal to the
input except possibly `lastEvent`, with player resources, combat fields,
inventory and progression untouched. -/
theorem claim3_wrong_turn_noop (content : ContentBundle) (s : GameState) (a : Id)
    (t : Option TimingGrade) (cb : Combat) (hcb : s.combat = some cb)
    (hblock : cb.outcome = some .DEFEAT_PROMPT ∨ cb.phase ≠ .PLAYER) :
    applyAction content s a t = s := by
  unfold applyAction
  rw [hcb]
  dsimp only
  rcases hblock with h | h
  · rw [if_pos h]
  · by_cases hdef : cb.outcome = some Outcome.DEFEAT_PROMPT
    · rw [if_pos hdef]
    · rw [if_neg hdef, if_pos h]

/-- C3, witness: a concrete DEFEAT_PROMPT snapshot is returned unchanged. -/
theorem claim3_witness :
    applyAction sampleContent
      { sampleState with combat := some { sampleCombat with outcome := some .DEFEAT_PROMPT } }
      "strike" none =
    { sampleState with combat := some { sampleCombat with outcome := some .DEFEAT_PROMPT } } :=
  claim3_wrong_turn_noop sampleContent _ "strike" none
    { sampleCombat with outcome := some .DEFEAT_PROMPT } rfl (Or.inl rfl)

-- ---------------------------------------------------------------------------
-- CLAIM C6 (confirmed)
-- ---------------------------------------------------------------------------

/-- C6: for every content bundle, snapshot and nonnegative xp amount, the
level-up loop of `grantXp` (which subtracts xp-to-next, increments the level,
recomputes `xpForLevel` — i.e. `max(10, floor(base * growth^(level-1)))` —
and grants +1 stat and +1 skill point per level) leaves the unspent pools
increased by exactly `N = finalLevel - initialLevel ≥ 0` each, leaves the
stats unchanged, and when `N ≥ 1` fully heals line integrity to the
`maxLineIntegrity` derived from the final level and the current durability,
with xp-to-next recomputed from the curve at the final level. -/
theorem claim6_level_up_accounting (content : ContentBundle) (s : GameState) (amount : ℚ)
    (hamt : 0 ≤ amount) :
    0 ≤ (grantXp content s amount).player.level - s.player.level ∧
    (grantXp content s amount).player.unspentStatPoints =
      s.player.unspentStatPoints +
        (((grantXp content s amount).player.level - s.player.level : ℤ) : ℚ) ∧
    (grantXp content s amount).player.unspentSkillPoints =
      s.player.unspentSkillPoints +
        (((grantXp content s amount).player.level - s.player.level : ℤ) : ℚ) ∧
    (grantXp content s amount).player.stats = s.player.stats ∧
    (1 ≤ (grantXp content s amount).player.level - s.player.level →
      (grantXp content s amount).player.xpToNext =
        xpForLevel content (grantXp content s amount).player.level ∧
      (grantXp content s amount).player.maxLineIntegrity =
        deriveMaxLineIntegrity content (grantXp content s amount).player.level
          s.player.stats.durability ∧
      (grantXp content s amount).player.lineIntegrity =
        (grantXp content s amount).player.maxLineIntegrity) := by
  unfold grantXp
  obtain ⟨i1, i2, i3, i4, _, _, _, _, _, _, _, _, _, _, _, i16⟩ :=
    grantXpGo_spec content s (s.player.xp + amount) s.player.level s.player.xpToNext rfl
  refine ⟨by omega, i2, i3, i4, ?_⟩
  intro hN
  exact i16 (by omega)

/-- C6, witness: granting 45 xp to the sample level-1 player (xp-to-next 40)
crosses exactly one level boundary. -/
theorem claim6_witness :
    0 ≤ (grantXp sampleContent sampleState 45).player.level - sampleState.player.level ∧
    (grantXp sampleContent sampleState 45).player.unspentStatPoints =
      sampleState.player.unspentStatPoints +
        (((grantXp sampleContent sampleState 45).player.level - sampleState.player.level : ℤ) : ℚ) :=
  ⟨(claim6_level_up_accounting sampleContent sampleState 45 (by norm_num)).1,
   (claim6_level_up_accounting sampleContent sampleState 45 (by norm_num)).2.1⟩

-- ---------------------------------------------------------------------------
-- CLAIM C4 (confirmed)
-- ---------------------------------------------------------------------------

/-- C4: when the player's action drives the fish's stamina to 0 or below, the
call resolves the win immediately: no fish turn runs, the result equals
`resolveWin` on the post-action state (so no pressure, wear or turn increment
is applied), combat is cleared, and tension is relieved multiplicatively to
`max(0, round(0.35 * tension))` where tension is the post-action value; the
fish's xp is granted through the level-up loop (`resolveWin` calls
`grantXp`). -/
theorem claim4_finishing_blow (content : ContentBundle) (s : GameState) (actionId : Id)
    (t : Option TimingGrade) (cb : Combat) (action : ActionDef) (cbW : Combat)
    (hcb : s.combat = some cb)
    (hdef : cb.outcome ≠ some .DEFEAT_PROMPT)
    (hph : cb.phase = .PLAYER)
    (hact : alookup content.actions actionId = some action)
    (hmid : (applyPlayerIntent content s cb action t).combat = some cbW)
    (hsta : cbW.fishStamina ≤ 0) :
    applyAction content s actionId t =
      resolveWin content (getFish content cb.enemyId) (applyPlayerIntent content s cb action t) ∧
    (applyAction content s actionId t).combat = none ∧
    (applyAction content s actionId t).player.tension =
      max 0 (jsRound ((applyPlayerIntent content s cb action t).player.tension * 0.35)) := by
  have hnp : ¬ (cb.phase ≠ TurnPhase.PLAYER) := by simp [hph]
  have heq : applyAction content s actionId t =
      resolveWin content (getFish content cb.enemyId) (applyPlayerIntent content s cb action t) := by
    unfold applyAction
    rw [hcb]
    dsimp only
    rw [if_neg hdef, if_neg hnp, hact]
    dsimp only
    rw [hmid]
    dsimp only
    rw [if_pos hsta]
  exact ⟨heq, by rw [heq, resolveWin_combat], by rw [heq, resolveWin_tension]⟩

/-- C4, witness: the sample strike takes the carp from stamina 10 to 0 and
resolves the win in the same call, clearing combat. -/
theorem claim4_witness :
    (applyAction sampleContent sampleState "strike" none).combat = none :=
  (claim4_finishing_blow sampleContent sampleState "strike" none sampleCombat strikeAction
    { sampleCombat with fishStamina := 0 }
    rfl (by decide) rfl
    (by norm_num [alookup, sampleContent])
    (by norm_num [applyPlayerIntent, sampleContent, sampleState, sampleCombat, samplePlayer,
      strikeAction, interpretAction, jsRound, phaseTuning, effectiveStats, collectEffects,
      collectRigTotals, alookup, clamp, safeTensionLimit, applyTension, phaseForStamina,
      statGet, statSet, defaultStats, perfectContractStep, phaseRecalcStep])
    (by norm_num)).2.1

-- ---------------------------------------------------------------------------
-- CLAIM C10 (confirmed)
-- ---------------------------------------------------------------------------

/-- C10: when the player's current rank of an existing skill already equals
the skill's `maxRank`, `unlockOrUpgradeSkill` returns the snapshot unchanged
except for a log event — `skillRanks`, `unspentSkillPoints` and
`knownActions` are all untouched (every early-return path copies the whole
snapshot with only `lastEvent` replaced, and the success path is unreachable
because the rank check `currentRank >= maxRank` fires). -/
theorem claim10_max_rank_cap (content : ContentBundle) (s : GameState) (skillId : Id)
    (skill : Skill)
    (hsk : content.skills.bind (fun sk => alookup sk skillId) = some skill)
    (hrank : (alookup s.player.skillRanks skillId).getD 0 = skill.maxRank) :
    ∃ txt, unlockOrUpgradeSkill content s skillId = { s with lastEvent := some (.log txt) } := by
  unfold unlockOrUpgradeSkill
  rw [hsk]
  dsimp only
  split
  · exact ⟨_, rfl⟩
  · split
    · exact ⟨_, rfl⟩
    · split
      · exact ⟨_, rfl⟩
      · split
        · exact ⟨_, rfl⟩
        · rename_i hn
          exact absurd (ge_of_eq hrank) hn

/-- C10, witness: the sample snapshot has the `grit` skill at its max rank 2;
upgrading it changes only the log event. -/
theorem claim10_witness :
    ∃ txt, unlockOrUpgradeSkill sampleContent sampleState "grit" =
      { sampleState with lastEvent := some (.log txt) } :=
  claim10_max_rank_cap sampleContent sampleState "grit"
    { id := "grit", label := "Grit", type := .PASSIVE, requiredLevel := 1, maxRank := 2,
      prereq := [], grantsActions := [], effects := [] }
    (by norm_num [sampleContent, alookup, Option.bind])
    (by norm_num [sampleState, samplePlayer, alookup])

-- ---------------------------------------------------------------------------
-- CLAIM C8 (corrected)
-- ---------------------------------------------------------------------------

/-- A mid-fight snapshot (outcome NONE) with damaged line integrity. -/
def retryState : GameState :=
  { sampleState with
    player := { samplePlayer with lineIntegrity := 40 }
    combat := some { sampleCombat with fishStamina := 5 } }

/-- C8, counterexample: the engine does not gate `retryFight` on
DEFEAT_PROMPT.  From a snapshot whose combat outcome is NONE (mid-fight), the
call still resets the fish and restores integrity (40 → 100), rather than
returning the snapshot unchanged with a log event. -/
theorem claim8_counterexample :
    (∃ cb, retryState.combat = some cb ∧ cb.outcome = some Outcome.NONE) ∧
    (retryFight sampleContent retryState).player.lineIntegrity = 100 ∧
    retryState.player.lineIntegrity = 40 := by
  refine ⟨⟨{ sampleCombat with fishStamina := 5 }, rfl, rfl⟩, ?_, by norm_num [retryState, samplePlayer]⟩
  norm_num [retryFight, retryState, sampleState, samplePlayer, sampleCombat, getFish,
    sampleContent, alookup, clamp, phaseForStamina]

/-- C8 (amended): `retryFight` is applicable from any snapshot whose combat
stores a `lastSpawn` record — the engine never checks for DEFEAT_PROMPT (that
gating is the caller's concern).  When applied, it resets combat to the same
opponent id at the content-derived full stamina (turn 1, PLAYER phase,
outcome NONE, no flags), restores `lineIntegrity` to `maxLineIntegrity`,
clamps tension into `[0, maxTension]`, and leaves every other field —
contract, currency, level, xp, stats, skill ranks, inventory — unchanged. -/
theorem claim8_retry_resets (content : ContentBundle) (s : GameState) (cb : Combat)
    (spawn : EncounterRef) (hcb : s.combat = some cb) (hsp : cb.lastSpawn = some spawn) :
    retryFight content s =
      { s with
        player := { s.player with
                    tension := clamp s.player.tension 0 s.player.maxTension
                    lineIntegrity := s.player.maxLineIntegrity }
        combat := some
          { enemyId := spawn.enemyId
            fishStamina := (getFish content spawn.enemyId).maxStamina
            maxFishStamina := (getFish content spawn.enemyId).maxStamina
            fishPhase := phaseForStamina (getFish content spawn.enemyId).maxStamina
              (getFish content spawn.enemyId).maxStamina
            phase := .PLAYER
            turn := 1
            brace := 0
            control := 0
            skill := none
            lastSpawn := some spawn
            outcome := some .NONE }
        lastEvent := some (.log "Retry!") } := by
  unfold retryFight
  have h : s.combat.bind (fun c => c.lastSpawn) = some spawn := by
    rw [hcb]
    exact hsp
  rw [h]

/-- C8, witness: applying the amended theorem to the concrete mid-fight
snapshot. -/
theorem claim8_witness :
    retryFight sampleContent retryState =
      { retryState with
        player := { retryState.player with
                    tension := clamp retryState.player.tension 0 retryState.player.maxTension
                    lineIntegrity := retryState.player.maxLineIntegrity }
        combat := some
          { enemyId := "carp"
            fishStamina := (getFish sampleContent "carp").maxStamina
            maxFishStamina := (getFish sampleContent "carp").maxStamina
            fishPhase := phaseForStamina (getFish sampleContent "carp").maxStamina
              (getFish sampleContent "carp").maxStamina
            phase := .PLAYER
            turn := 1
            brace := 0
            control := 0
            skill := none
            lastSpawn := some { regionId := "reef", enemyId := "carp" }
            outcome := some .NONE }
        lastEvent := some (.log "Retry!") } :=
  claim8_retry_resets sampleContent retryState { sampleCombat with fishStamina := 5 }
    { regionId := "reef", enemyId := "carp" } rfl rfl

-- ---------------------------------------------------------------------------
-- CLAIM C1 (corrected)
-- ---------------------------------------------------------------------------

/-- Content whose only region's pool references an enemy id ("ghost") that is
absent from `enemies`. -/
def ghostContent : ContentBundle :=
  { sampleContent with
    regions := [("reef", { id := "reef", name := "Reef", requiredLevel := 1,
                           encounterPool := [{ enemyId := "ghost", weight := 1 }] })]
    enemies := [] }

/-- The sample snapshot outside of combat. -/
def idleState : GameState := { sampleState with combat := none }

/-- C1, counterexample: starting an encounter against an enemy id missing
from `content.enemies` does NOT return the snapshot unchanged with a log
event — a combat sub-record IS created (against the `getFish` fallback fish),
both for the targeted start and for the random one. -/
theorem claim1_counterexample :
    alookup ghostContent.enemies "ghost" = none ∧
    idleState.combat = none ∧
    (startFightAgainstEnemy ghostContent idleState "reef" "ghost").combat ≠ none ∧
    (startFight ghostContent idleState (1/2)).combat ≠ none := by
  refine ⟨rfl, rfl, ?_, ?_⟩
  · intro h
    norm_num [startFightAgainstEnemy, ghostContent, idleState, sampleState, samplePlayer,
      alookup, getFish, freshCombat] at h
    exact Option.noConfusion h
  · intro h
    norm_num [startFight, ghostContent, idleState, sampleState, samplePlayer,
      alookup, getFish, freshCombat, pickWeighted, pickWeightedGo] at h
    exact Option.noConfusion h

/-- C1 (amended): starting an encounter whose selected enemy id is not in
`content.enemies` does not fail soft.  `getFish` substitutes the hardcoded
fallback fish (name = id, maxStamina 80, pressure 10, xp 10) — the `if
(!fish)` guards in the source are unreachable because `getFish` is total —
and a full combat sub-record is created against it at full stamina, with a
SPAWN event (not a log of the missing id). -/
theorem claim1_missing_enemy_fallback :
    (∀ (content : ContentBundle) (s : GameState) (regionId enemyId : Id) (region : Region),
      alookup content.regions regionId = some region →
      ¬ ((s.player.level : ℚ) < region.requiredLevel) →
      alookup content.enemies enemyId = none →
      getFish content enemyId =
        { id := enemyId, name := enemyId, maxStamina := 80, pressure := 10, xp := 10 } ∧
      startFightAgainstEnemy content s regionId enemyId =
        { s with
          progress := { regionId := regionId }
          combat := some (freshCombat regionId enemyId 80)
          lastEvent := some (.spawn regionId enemyId) }) ∧
    (∀ (content : ContentBundle) (s : GameState) (region : Region) (u : ℚ),
      alookup content.regions s.progress.regionId = some region →
      ¬ ((s.player.level : ℚ) < region.requiredLevel) →
      alookup content.enemies (pickWeighted region.encounterPool u) = none →
      startFight content s u =
        { s with
          combat := some (freshCombat s.progress.regionId (pickWeighted region.encounterPool u) 80)
          lastEvent := some (.spawn s.progress.regionId (pickWeighted region.encounterPool u)) }) := by
  constructor
  · intro content s regionId enemyId region hreg hlv henemy
    have hf : getFish content enemyId =
        { id := enemyId, name := enemyId, maxStamina := 80, pressure := 10, xp := 10 } := by
      unfold getFish
      rw [henemy]
    refine ⟨hf, ?_⟩
    unfold startFightAgainstEnemy
    rw [hreg]
    dsimp only
    rw [if_neg hlv, hf]
  · intro content s region u hreg hlv henemy
    have hf : getFish content (pickWeighted region.encounterPool u) =
        { id := pickWeighted region.encounterPool u, name := pickWeighted region.encounterPool u,
          maxStamina := 80, pressure := 10, xp := 10 } := by
      unfold getFish
      rw [henemy]
    unfold startFight
    dsimp only
    rw [hreg]
    dsimp only
    rw [if_neg hlv, hf]

/-- C1, witness: the amended fallback behaviour at the concrete fixture. -/
theorem claim1_witness :
    startFightAgainstEnemy ghostContent idleState "reef" "ghost" =
      { idleState with
        progress := { regionId := "reef" }
        combat := some (freshCombat "reef" "ghost" 80)
        lastEvent := some (.spawn "reef" "ghost") } :=
  (claim1_missing_enemy_fallback.1 ghostContent idleState "reef" "ghost"
    { id := "reef", name := "Reef", requiredLevel := 1,
      encounterPool := [{ enemyId := "ghost", weight := 1 }] }
    (by norm_num [ghostContent, alookup])
    (by norm_num [idleState, sampleState, samplePlayer])
    rfl).2

-- ---------------------------------------------------------------------------
-- CLAIM C9 (corrected)
-- ---------------------------------------------------------------------------

theorem alookup_aset {κ α : Type} [DecidableEq κ] (l : List (κ × α)) (k : κ) (v : α) :
    alookup (aset l k v) k = some v := by
  induction l with
  | nil => simp [aset, alookup]
  | cons hd tl ih =>
    by_cases h : hd.1 = k
    · simp [aset, alookup, h]
    · simp only [aset]
      rw [if_neg h]
      simp only [alookup]
      rw [if_neg h]
      exact ih

/-- A snapshot sitting at the defeat prompt with damaged integrity and one
potion. -/
def defeatState : GameState :=
  { sampleState with
    player := { samplePlayer with lineIntegrity := 20 }
    combat := some { sampleCombat with outcome := some .DEFEAT_PROMPT } }

/-- C9, counterexample: using an item while the combat outcome IS
DEFEAT_PROMPT still applies the item's effect — integrity 20 → 30 and the
potion is consumed — contradicting "whenever the combat outcome is not
DEFEAT_PROMPT — and only then". -/
theorem claim9_counterexample :
    (∃ cb, defeatState.combat = some cb ∧ cb.outcome = some Outcome.DEFEAT_PROMPT) ∧
    (useItem sampleContent defeatState "potion").player.lineIntegrity = 30 ∧
    alookup (useItem sampleContent defeatState "potion").player.inventory "potion" = some 0 := by
  refine ⟨⟨{ sampleCombat with outcome := some .DEFEAT_PROMPT }, rfl, rfl⟩, ?_, ?_⟩ <;>
    norm_num [useItem, itemFishResponse, itemIntegrityRestore, potionItem, defeatState,
      sampleState, samplePlayer, sampleCombat, sampleContent, alookup, aset, clamp, applyTension]

/-- C9 (amended): `useItem`'s only guards are ownership and existence.  In
combat the item's effect (integrity restored up to the max, tension reduced
when the item has a tension value, inventory decremented) applies regardless
of the combat phase AND regardless of the outcome — including at
DEFEAT_PROMPT; the fish's automatic response runs exactly when the combat
phase is PLAYER and the outcome is not DEFEAT_PROMPT, on the state the item
effect already produced.  (The original claim's "and only then" fails, as the
counterexample shows.) -/
theorem claim9_item_always_applies :
    (∀ (content : ContentBundle) (s : GameState) (itemId : Id) (item : Item) (cb : Combat),
      0 < (alookup s.player.inventory itemId).getD 0 →
      alookup content.items itemId = some item →
      s.combat = some cb →
      ¬ (cb.phase = .PLAYER ∧ cb.outcome ≠ some .DEFEAT_PROMPT) →
      (useItem content s itemId).player.lineIntegrity =
        clamp (s.player.lineIntegrity + itemIntegrityRestore item) 0 s.player.maxLineIntegrity ∧
      alookup (useItem content s itemId).player.inventory itemId =
        some ((alookup s.player.inventory itemId).getD 0 - 1) ∧
      (useItem content s itemId).player.tension =
        (if item.tensionReduce.getD 0 ≠ 0 then
          clamp (s.player.tension + -(item.tensionReduce.getD 0)) 0 s.player.maxTension
         else s.player.tension) ∧
      (useItem content s itemId).combat = s.combat) ∧
    (∀ (content : ContentBundle) (s : GameState) (itemId : Id) (item : Item) (cb : Combat),
      0 < (alookup s.player.inventory itemId).getD 0 →
      alookup content.items itemId = some item →
      s.combat = some cb →
      cb.phase = .PLAYER →
      cb.outcome ≠ some .DEFEAT_PROMPT →
      useItem content s itemId =
        fishTurn content (getFish content cb.enemyId)
          { (if item.tensionReduce.getD 0 ≠ 0 then
               applyTension
                 { s with
                   player := { s.player with
                               lineIntegrity := clamp (s.player.lineIntegrity + itemIntegrityRestore item)
                                 0 s.player.maxLineIntegrity
                               inventory := aset s.player.inventory itemId
                                 ((alookup s.player.inventory itemId).getD 0 - 1) }
                   lastEvent :=
                     if itemIntegrityRestore item > 0 then
                       some (.integrity (itemIntegrityRestore item)
                         (clamp (s.player.lineIntegrity + itemIntegrityRestore item)
                           0 s.player.maxLineIntegrity)
                         (some item.label))
                     else some (.log "Used item.") }
                 (-(item.tensionReduce.getD 0)) (some item.label)
             else
               { s with
                 player := { s.player with
                             lineIntegrity := clamp (s.player.lineIntegrity + itemIntegrityRestore item)
                               0 s.player.maxLineIntegrity
                             inventory := aset s.player.inventory itemId
                               ((alookup s.player.inventory itemId).getD 0 - 1) }
                 lastEvent :=
                   if itemIntegrityRestore item > 0 then
                     some (.integrity (itemIntegrityRestore item)
                       (clamp (s.player.lineIntegrity + itemIntegrityRestore item)
                         0 s.player.maxLineIntegrity)
                       (some item.label))
                   else some (.log "Used item.") })
            with combat := some { cb with phase := .FISH } }) := by
  constructor
  · intro content s itemId item cb hcount hitem hcb hblock
    unfold useItem itemFishResponse
    rw [hitem]
    dsimp only
    rw [if_neg (not_le.mpr hcount)]
    by_cases hTR : item.tensionReduce.getD 0 ≠ 0
    · rw [if_pos hTR]
      dsimp only [applyTension]
      rw [hcb]
      dsimp only
      rw [if_neg hblock, if_pos hTR]
      exact ⟨rfl, alookup_aset _ _ _, rfl, rfl⟩
    · rw [if_neg hTR]
      dsimp only
      rw [hcb]
      dsimp only
      rw [if_neg hblock, if_neg hTR]
      exact ⟨rfl, alookup_aset _ _ _, rfl, rfl⟩
  · intro content s itemId item cb hcount hitem hcb hph hout
    unfold useItem itemFishResponse
    rw [hitem]
    dsimp only
    rw [if_neg (not_le.mpr hcount)]
    by_cases hTR : item.tensionReduce.getD 0 ≠ 0
    · rw [if_pos hTR]
      dsimp only [applyTension]
      rw [hcb]
      dsimp only
      rw [if_pos ⟨hph, hout⟩]
    · rw [if_neg hTR]
      dsimp only
      rw [hcb]
      dsimp only
      rw [if_pos ⟨hph, hout⟩]

/-- C9, witness: the effect applies at the defeat prompt on the concrete
fixture (first conjunct of the amended theorem, with every hypothesis
discharged). -/
theorem claim9_witness :
    (useItem sampleContent defeatState "potion").player.lineIntegrity =
      clamp (defeatState.player.lineIntegrity + itemIntegrityRestore potionItem)
        0 defeatState.player.maxLineIntegrity :=
  ((claim9_item_always_applies.1 sampleContent defeatState "potion" potionItem
    { sampleCombat with outcome := some .DEFEAT_PROMPT }
    (by norm_num [defeatState, sampleState, samplePlayer, alookup])
    (by norm_num [sampleContent, alookup])
    rfl
    (by simp)).1)

-- ---------------------------------------------------------------------------
-- CLAIM C5: integrity wear on the fish's turn
-- ---------------------------------------------------------------------------

/-- The wear amount exactly as the specification words it:
`clamp(round(clamp(ceil(excess/10), 1, 8) * clamp(1 - durability*0.03, 0.65, 1)
* aggregated wear multiplier), 1, 8)` — written from the spec sentence, to be
compared with the source's `wearAmount` (which floors the combined multiplier
at `0.2` before rounding). -/
def specWearAmount (content : ContentBundle) (state : GameState) : ℚ :=
  let safe := safeTensionLimit content state
  let over := max 0 (state.player.tension - safe)
  let baseWear := clamp (jsCeil (over / 10)) 1 8
  let stats := effectiveStats content state
  let effects := collectEffects content state
  let durabilityMult := clamp (1 - stats.durability * 0.03) 0.65 1
  clamp (jsRound (baseWear * (durabilityMult * effects.integrityWearMult))) 1 8

/-- A fish that exerts no pressure, so the fish turn leaves tension alone and
isolates the wear step. -/
def wearFish : FishDef :=
  { id := "calm", name := "Calm", maxStamina := 80, pressure := 0, xp := 0 }

/-- Mid-fight combat record on the fish's turn, no skill flags. -/
def wearCombat : Combat :=
  { enemyId := "calm", fishStamina := 40, maxFishStamina := 80, fishPhase := .DEFENSIVE,
    phase := .FISH, turn := 2, brace := 0, control := 0, skill := none,
    lastSpawn := none, outcome := some .NONE }

/-- Content with two installed-able rig mods that each multiply integrity wear
by `0.25` (so the aggregated multiplier can drop to `0.0625`, well below the
source's `0.2` floor). -/
def wearContent : ContentBundle :=
  { sampleContent with
    skills := none
    rigMods := some
      [("softA", { id := "softA", label := "Soft A", effects := [.INTEGRITY_WEAR_MULT 0.25] }),
       ("softB", { id := "softB", label := "Soft B", effects := [.INTEGRITY_WEAR_MULT 0.25] })] }

/-- High tension (129 over a 58 safe limit), durability 12, both soft rig mods
installed: the combined multiplier `0.65 * 0.0625` falls under the `0.2` floor. -/
def wearState : GameState :=
  { sampleState with
    player :=
      { samplePlayer with
        stats := { defaultStats with durability := 12 }
        tension := 129
        maxTension := 200 }
    temporaryMods := some ["softA", "softB"]
    combat := some wearCombat }

/-- Tension 70 over a 58 safe limit but only 1 line integrity left, so the
clamp at zero absorbs part of the wear. -/
def floorState : GameState :=
  { sampleState with
    player :=
      { samplePlayer with
        tension := 70
        lineIntegrity := 1 }
    combat := some wearCombat }

/-- The snapshot mid fish-turn on `wearState`: the calm fish pulled for zero
tension, brace reset, turn advanced, wear not yet applied. -/
def wearMid : GameState :=
  { contentVersion := some "0.1.0", progress := { regionId := "reef" },
    player :=
      { level := 1, xp := 0, xpToNext := 40,
        stats := { control := 0, power := 0, durability := 12, precision := 0, tactics := 0 },
        unspentStatPoints := 1, skillRanks := [("grit", 2)], unspentSkillPoints := 1,
        tension := 129, maxTension := 200, lineIntegrity := 100, maxLineIntegrity := 100,
        knownActions := ["strike"], inventory := [("potion", 1)] },
    currency := some 0, temporaryMods := some ["softA", "softB"], contract := none,
    combat :=
      some { enemyId := "calm", fishStamina := 40, maxFishStamina := 80,
             fishPhase := FishPhase.DEFENSIVE, phase := TurnPhase.PLAYER, turn := 3,
             brace := 0, control := 0, skill := none, lastSpawn := none,
             outcome := some Outcome.NONE },
    lastEvent := some (GameEvent.tension 0 129 (some ("Calm" ++ " pulls"))) }

/-- The snapshot mid fish-turn on `floorState`. -/
def floorMid : GameState :=
  { contentVersion := some "0.1.0", progress := { regionId := "reef" },
    player :=
      { level := 1, xp := 0, xpToNext := 40,
        stats := { control := 0, power := 0, durability := 0, precision := 0, tactics := 0 },
        unspentStatPoints := 1, skillRanks := [("grit", 2)], unspentSkillPoints := 1,
        tension := 70, maxTension := 100, lineIntegrity := 1, maxLineIntegrity := 100,
        knownActions := ["strike"], inventory := [("potion", 1)] },
    currency := some 0, temporaryMods := some [], contract := none,
    combat :=
      some { enemyId := "calm", fishStamina := 40, maxFishStamina := 80,
             fishPhase := FishPhase.DEFENSIVE, phase := TurnPhase.PLAYER, turn := 3,
             brace := 0, control := 0, skill := none, lastSpawn := none,
             outcome := some Outcome.NONE },
    lastEvent := some (GameEvent.tension 0 70 (some ("Calm" ++ " pulls"))) }

/-- The one-turn flag after the negate-wear clearing map is never `some true`. -/
theorem flag_clear_map (oc : Option Combat) :
    (((oc.map (fun cb : Combat =>
        { cb with skill := cb.skill.map (fun fl : SkillFlags => { fl with negateWearThisTurn := some false }) })).bind
          (·.skill)).bind (·.negateWearThisTurn)) ≠ some true := by
  rcases oc with _ | cb
  · simp
  · rcases hs : cb.skill with _ | fl <;> simp [hs]

/-- `resolveLose` only touches the outcome field of the combat record, so the
negate-wear flag reads the same before and after. -/
theorem resolveLose_flag (t : GameState) :
    (((resolveLose t).combat.bind (·.skill)).bind (·.negateWearThisTurn)) =
      ((t.combat.bind (·.skill)).bind (·.negateWearThisTurn)) := by
  rcases hc : t.combat with _ | cb <;> simp [resolveLose, hc]

/-- The wear phase only ever edits the player through `applyIntegrityWear`:
the flag-clearing step and `resolveLose` leave the player record alone. -/
theorem fishWearPhase_player (content : ContentBundle) (t : GameState) :
    (fishWearPhase content t).player =
      (applyIntegrityWear content t (some "Over-tension")).player := by
  unfold fishWearPhase
  dsimp only
  split
  · split
    · simp [resolveLose]
    · rfl
  · split
    · simp [resolveLose]
    · rfl

/-- After the wear phase of the fish turn the one-turn negate-wear flag is
never still `some true`: it is either absent, already false, or cleared. -/
theorem fishWearPhase_flag (content : ContentBundle) (t : GameState) :
    (((fishWearPhase content t).combat.bind (·.skill)).bind (·.negateWearThisTurn)) ≠
      some true := by
  unfold fishWearPhase
  dsimp only
  by_cases h : (((applyIntegrityWear content t (some "Over-tension")).combat.bind
      (·.skill)).bind (·.negateWearThisTurn)) = some true
  · rw [if_pos h]
    dsimp only
    split
    · rw [resolveLose_flag]
      exact flag_clear_map _
    · exact flag_clear_map _
  · rw [if_neg h]
    split
    · rw [resolveLose_flag]
      exact h
    · exact h

set_option maxHeartbeats 1000000 in
/-- C5, counterexample: the spec's wear formula omits the source's
`max(0.2, ·)` floor on the combined multiplier, and "integrity decreases by
[the formula]" fails at the integrity floor.  (a) With durability 12 and two
0.25 wear-mult rig mods, one fish turn at tension 129 takes 2 integrity while
the spec formula says 1.  (b) With 1 integrity left at tension 70, the fish
turn takes 1 integrity while the formula (and the source's wear amount) is 2. -/
theorem claim5_counterexample :
    (safeTensionLimit wearContent wearState < wearState.player.tension ∧
     ((wearState.combat.bind (·.skill)).bind (·.negateWearThisTurn)) ≠ some true ∧
     wearState.player.lineIntegrity -
       (fishTurn wearContent wearFish wearState).player.lineIntegrity = 2 ∧
     specWearAmount wearContent wearState = 1) ∧
    (safeTensionLimit sampleContent floorState < floorState.player.tension ∧
     ((floorState.combat.bind (·.skill)).bind (·.negateWearThisTurn)) ≠ some true ∧
     floorState.player.lineIntegrity -
       (fishTurn sampleContent wearFish floorState).player.lineIntegrity = 1 ∧
     specWearAmount sampleContent floorState = 2) := by
  have hw1 : fishTurn wearContent wearFish wearState = fishWearPhase wearContent wearMid := by
    norm_num [fishTurn, fishBleedStep, fishReactStep, applyTension, effectiveStats, collectEffects,
      collectRigTotals, phaseTuning, clamp, jsRound, wearContent, wearState, wearCombat, wearFish,
      sampleContent, sampleState, samplePlayer, defaultStats, alookup, statGet, statSet, Option.bind,
      wearMid, (show ¬ (("softA" : String) = "softB") from by decide)]
  have hw2 : (applyIntegrityWear wearContent wearMid (some "Over-tension")).player.lineIntegrity = 98 := by
    norm_num [applyIntegrityWear, wearAmount, safeTensionLimit, effectiveStats, collectEffects,
      collectRigTotals, clamp, jsRound, jsCeil, wearContent, wearMid, sampleContent,
      alookup, statGet, statSet, Option.bind,
      (show ¬ (("softA" : String) = "softB") from by decide),
      (show ¬ ((none : Option Bool) = some true) from by simp),
      (show (⌈(71:ℚ)/10⌉ : ℤ) = 8 from by norm_num [Int.ceil_eq_iff])]
  have hf1 : fishTurn sampleContent wearFish floorState = fishWearPhase sampleContent floorMid := by
    norm_num [fishTurn, fishBleedStep, fishReactStep, applyTension, effectiveStats, collectEffects,
      collectRigTotals, phaseTuning, clamp, jsRound, floorState, wearCombat, wearFish,
      sampleContent, sampleState, samplePlayer, defaultStats, alookup, statGet, statSet, Option.bind,
      floorMid]
  have hf2 : (applyIntegrityWear sampleContent floorMid (some "Over-tension")).player.lineIntegrity = 0 := by
    norm_num [applyIntegrityWear, wearAmount, safeTensionLimit, effectiveStats, collectEffects,
      collectRigTotals, clamp, jsRound, jsCeil, floorMid, sampleContent,
      alookup, statGet, statSet, Option.bind,
      (show ¬ ((none : Option Bool) = some true) from by simp),
      (show (⌈(12:ℚ)/10⌉ : ℤ) = 2 from by norm_num [Int.ceil_eq_iff]),
      (show (⌈(6:ℚ)/5⌉ : ℤ) = 2 from by norm_num [Int.ceil_eq_iff])]
  refine ⟨⟨?_, ?_, ?_, ?_⟩, ?_, ?_, ?_, ?_⟩
  · norm_num [safeTensionLimit, effectiveStats, collectRigTotals, wearState, wearCombat,
      sampleState, samplePlayer, defaultStats, clamp, jsRound, wearContent, sampleContent,
      alookup, statGet, statSet, Option.bind,
      (show ¬ (("softA" : String) = "softB") from by decide)]
  · simp [wearState, sampleState, wearCombat]
  · rw [hw1, fishWearPhase_player, hw2]
    norm_num [wearState, sampleState, samplePlayer]
  · norm_num [specWearAmount, safeTensionLimit, effectiveStats, collectEffects, collectRigTotals,
      wearState, wearCombat, sampleState, samplePlayer, defaultStats, clamp, jsRound, jsCeil,
      wearContent, sampleContent, alookup, statGet, statSet, Option.bind,
      (show ¬ (("softA" : String) = "softB") from by decide),
      (show (⌈(71:ℚ)/10⌉ : ℤ) = 8 from by norm_num [Int.ceil_eq_iff])]
  · norm_num [safeTensionLimit, effectiveStats, collectRigTotals, floorState, wearCombat,
      sampleState, samplePlayer, defaultStats, clamp, jsRound, sampleContent,
      alookup, statGet, statSet, Option.bind]
  · simp [floorState, sampleState, wearCombat]
  · rw [hf1, fishWearPhase_player, hf2]
    norm_num [floorState, sampleState, samplePlayer]
  · norm_num [specWearAmount, safeTensionLimit, effectiveStats, collectEffects, collectRigTotals,
      floorState, wearCombat, sampleState, samplePlayer, defaultStats, clamp, jsRound, jsCeil,
      sampleContent, alookup, statGet, statSet, Option.bind,
      (show (⌈(12:ℚ)/10⌉ : ℤ) = 2 from by norm_num [Int.ceil_eq_iff]),
      (show (⌈(6:ℚ)/5⌉ : ℤ) = 2 from by norm_num [Int.ceil_eq_iff])]

/-- C5 (amended): on the fish's turn, wear is skipped when the one-turn
negate flag is set; tension at or below the safe limit causes no wear; when
tension strictly exceeds the limit and the flag is unset, integrity moves to
`clamp(integrity - wear, 0, maxLineIntegrity)` where `wear =
clamp(round(clamp(ceil(excess/10),1,8) * max(0.2, durabilityMult *
aggregated wear mult)), 1, 8)` (so the amount is between 1 and 8, but the
realized decrease can be smaller at the integrity floor); and after every
fish turn the negate flag is never left set. -/
theorem claim5_wear_rule :
    (∀ (content : ContentBundle) (s : GameState) (r : Option String),
      ((s.combat.bind (·.skill)).bind (·.negateWearThisTurn)) = some true →
      applyIntegrityWear content s r = s) ∧
    (∀ (content : ContentBundle) (s : GameState) (r : Option String),
      s.player.tension ≤ safeTensionLimit content s →
      applyIntegrityWear content s r = s) ∧
    (∀ (content : ContentBundle) (s : GameState) (r : Option String),
      ¬ (((s.combat.bind (·.skill)).bind (·.negateWearThisTurn)) = some true) →
      safeTensionLimit content s < s.player.tension →
      (applyIntegrityWear content s r).player.lineIntegrity =
        clamp (s.player.lineIntegrity - wearAmount content s) 0 s.player.maxLineIntegrity ∧
      1 ≤ wearAmount content s ∧ wearAmount content s ≤ 8) ∧
    (∀ (content : ContentBundle) (fish : FishDef) (s : GameState),
      (((fishTurn content fish s).combat.bind (·.skill)).bind (·.negateWearThisTurn)) ≠
        some true) := by
  refine ⟨?_, ?_, ?_, ?_⟩
  · intro content s r h
    unfold applyIntegrityWear
    rw [if_pos h]
  · intro content s r h
    unfold applyIntegrityWear
    by_cases hflag : ((s.combat.bind (·.skill)).bind (·.negateWearThisTurn)) = some true
    · rw [if_pos hflag]
    · rw [if_neg hflag]
      dsimp only
      rw [if_pos (max_le le_rfl (sub_nonpos.mpr h))]
  · intro content s r hflag hover
    unfold applyIntegrityWear
    rw [if_neg hflag]
    dsimp only
    rw [if_neg (not_le.mpr (lt_max_iff.mpr (Or.inr (sub_pos.mpr hover))))]
    exact ⟨rfl, clamp_left_le _ _ _, clamp_le_right _ _ _ (by norm_num)⟩
  · intro content fish s
    rcases hsc : s.combat with _ | cb
    · unfold fishTurn
      rw [hsc]
      simp [hsc]
    · unfold fishTurn
      rw [hsc]
      exact fishWearPhase_flag _ _

set_option maxHeartbeats 1000000 in
/-- C5, witness: the over-tension branch of the amended theorem at the
concrete high-tension fixture, every hypothesis discharged. -/
theorem claim5_witness :
    (applyIntegrityWear wearContent wearState (some "Over-tension")).player.lineIntegrity =
      clamp (wearState.player.lineIntegrity - wearAmount wearContent wearState)
        0 wearState.player.maxLineIntegrity ∧
    1 ≤ wearAmount wearContent wearState ∧ wearAmount wearContent wearState ≤ 8 :=
  claim5_wear_rule.2.2.1 wearContent wearState (some "Over-tension")
    (by simp [wearState, sampleState, wearCombat])
    (by norm_num [safeTensionLimit, effectiveStats, collectRigTotals, wearState, wearCombat,
      sampleState, samplePlayer, defaultStats, clamp, jsRound, wearContent, sampleContent,
      alookup, statGet, statSet, Option.bind,
      (show ¬ (("softA" : String) = "softB") from by decide)])


-- ---------------------------------------------------------------------------
-- CLAIM C7: contract pre-roll and round-trip stability
-- ---------------------------------------------------------------------------

/-- `startFightAgainstEnemy` never touches the contract sub-state. -/
theorem startFightAgainstEnemy_contract (content : ContentBundle) (s : GameState)
    (regionId enemyId : Id) :
    (startFightAgainstEnemy content s regionId enemyId).contract = s.contract := by
  unfold startFightAgainstEnemy
  cases h : alookup content.regions regionId with
  | none => rfl
  | some r =>
    dsimp only
    split <;> rfl

/-- Normalizing the raw image of a well-formed encounter list (every enemy id
a nonempty string) reproduces the list unchanged. -/
theorem filterMap_raw_encounters (rid : Id) :
    ∀ (l : List EncounterRef), (∀ e ∈ l, e.enemyId ≠ "") →
      ((l.map (fun e => RawEncounter.mk (some e.regionId) (some e.enemyId))).filterMap
        (normalizeEncounter rid)) = l := by
  intro l
  induction l with
  | nil => intro h; rfl
  | cons hd tl ih =>
    intro h
    have h1 : hd.enemyId ≠ "" := h hd (List.mem_cons_self _ _)
    simp only [List.map_cons, List.filterMap_cons, normalizeEncounter]
    rw [if_neg h1]
    dsimp only [Option.getD_some]
    rw [ih (fun e he => h e (List.mem_cons_of_mem _ he))]

/-- An active two-encounter bounty run sitting at camp after the first fight. -/
def bountyRun : ContractState :=
  { contractId := "bounty", regionId := "reef",
    encounters := [{ regionId := "reef", enemyId := "carp" }, { regionId := "reef", enemyId := "carp" }],
    index := 1, phase := .CAMP,
    stats := { perfectCount := 3, fightsWon := 1 }, earned := { currency := 0 },
    lastReward := none }

/-- The sample snapshot carrying the active bounty run. -/
def contractSnapshot : GameState := { idleState with contract := some bountyRun }

/-- C7: `startContract` resolves the whole encounter sequence from the
injected random stream at start time and stores it verbatim in the snapshot
(index 0, phase FIGHT), and normalizing the raw image of any snapshot whose
active contract is well formed (nonempty contract id, nonempty enemy ids,
nonempty encounter list, index within range — all true of engine-produced
contracts) reproduces exactly the same encounter list, the same index and the
same phase: no re-rolling and no reordering. -/
theorem claim7_contract_roundtrip :
    (∀ (content : ContentBundle) (s : GameState) (contractId : Id)
       (rolls : ℕ → ℚ) (cdef : ContractDef) (region : Region) (lo hi : ℚ) (count : ℕ),
      content.contracts.bind (fun cs => alookup cs contractId) = some cdef →
      s.combat = none →
      s.contract = none →
      alookup content.regions cdef.regionId = some region →
      ¬ ((s.player.level : ℚ) < region.requiredLevel) →
      cdef.encounterPool = none →
      lo = clampNumber (cdef.encounterCount.map (·.min)) 1 12 2 →
      hi = clampNumber (cdef.encounterCount.map (·.max)) lo 12 (max lo 5) →
      count = (⌊randInt lo hi (rolls 0)⌋).toNat →
      ¬ (region.encounterPool.length ≤ 0) →
      1 ≤ count →
      (startContract content s contractId rolls).contract =
        some { contractId := cdef.id
               regionId := cdef.regionId
               encounters := (List.range count).map (fun i =>
                 EncounterRef.mk cdef.regionId (pickWeighted region.encounterPool (rolls (i + 1))))
               index := 0
               phase := .FIGHT
               stats := { perfectCount := 0, fightsWon := 0 }
               earned := { currency := 0 }
               lastReward := none }) ∧
    (∀ (content : ContentBundle) (s : GameState) (c : ContractState),
      s.contract = some c →
      c.contractId ≠ "" →
      (∀ e ∈ c.encounters, e.enemyId ≠ "") →
      c.encounters ≠ [] →
      0 ≤ c.index →
      c.index ≤ (c.encounters.length : ℤ) - 1 →
      ∃ c', (normalizeState content (toRaw s)).contract = some c' ∧
        c'.encounters = c.encounters ∧ c'.index = c.index ∧ c'.phase = c.phase) := by
  constructor
  · intro content s contractId rolls cdef region lo hi count hdef hcombat hcontract hreg hlvl hpn
      hlo hhi hcount hpoolne hcnt
    unfold startContract
    rw [hdef]
    dsimp only
    rw [hcombat, hcontract]
    simp only [Option.isSome_none, Bool.false_eq_true, if_false]
    rw [hreg]
    dsimp only
    rw [if_neg hlvl, hpn]
    dsimp only
    rw [if_neg hpoolne]
    rw [← hlo, ← hhi, ← hcount]
    unfold spawnContractEncounter
    dsimp only
    simp only [Option.isSome_none, Bool.false_eq_true, if_false]
    rw [if_neg (lt_irrefl (0 : ℤ))]
    have hpos : 0 < count := hcnt
    have hr : (List.range count)[(0 : ℤ).toNat]? = some 0 := by
      simp [List.getElem?_range, hpos]
    simp only [List.getElem?_map, hr, Option.map_some']
    rw [startFightAgainstEnemy_contract]
  · intro content s c hc hid hene hne h0 h1
    refine ⟨{ contractId := c.contractId, regionId := c.regionId, encounters := c.encounters,
              index := c.index, phase := c.phase,
              stats := { perfectCount := clampNumber (some c.stats.perfectCount) 0 9999 0,
                         fightsWon := clampNumber (some c.stats.fightsWon) 0 9999 0 },
              earned := { currency := clampNumber (some c.earned.currency) 0 999999 0 },
              lastReward := c.lastReward }, ?_, rfl, rfl, rfl⟩
    unfold normalizeState toRaw
    dsimp only
    rw [hc]
    simp only [Option.map_some', Option.some_bind]
    dsimp only [Option.getD_some]
    rw [filterMap_raw_encounters c.regionId c.encounters hene]
    have hidx : clampNumberI (some c.index) 0 (max 0 ((c.encounters.length : ℤ) - 1)) 0 = c.index := by
      unfold clampNumberI
      dsimp only
      omega
    rw [hidx]
    rw [if_neg hid, if_neg (not_le.mpr (List.length_pos.mpr hne))]
    cases hph : c.phase <;> rfl

/-- C7, witness: starting the two-fight bounty from the sample snapshot with
a constant random stream stores exactly two carp encounters (index 0, phase
FIGHT), and normalizing the raw image of a snapshot holding that run at camp
(index 1) reproduces the same list, index and phase. -/
theorem claim7_witness :
    ((startContract sampleContent idleState "bounty" (fun _ => 1/2)).contract =
      some { contractId := "bounty", regionId := "reef",
             encounters := [{ regionId := "reef", enemyId := "carp" },
                            { regionId := "reef", enemyId := "carp" }],
             index := 0, phase := .FIGHT,
             stats := { perfectCount := 0, fightsWon := 0 },
             earned := { currency := 0 }, lastReward := none }) ∧
    (∃ c', (normalizeState sampleContent (toRaw contractSnapshot)).contract = some c' ∧
      c'.encounters = bountyRun.encounters ∧ c'.index = bountyRun.index ∧
      c'.phase = bountyRun.phase) := by
  constructor
  · have h := claim7_contract_roundtrip.1 sampleContent idleState "bounty" (fun _ => 1/2)
      { id := "bounty", label := "Bounty", regionId := "reef",
        encounterCount := some { min := 2, max := 2 }, encounterPool := none }
      { id := "reef", name := "Reef", requiredLevel := 1,
        encounterPool := [{ enemyId := "carp", weight := 1 }] }
      2 2 2
      (by simp [sampleContent, alookup])
      rfl
      rfl
      (by simp [sampleContent, alookup])
      (by norm_num [idleState, sampleState, samplePlayer])
      rfl
      (by norm_num [clampNumber, clamp, Option.map_some'])
      (by norm_num [clampNumber, clamp, Option.map_some'])
      (by norm_num [randInt]; rfl)
      (by norm_num)
      (by norm_num)
    rw [h]
    norm_num [List.range_succ, pickWeighted, pickWeightedGo]
  · exact claim7_contract_roundtrip.2 sampleContent contractSnapshot bountyRun rfl
      (by decide) (by decide) (by decide) (by decide) (by norm_num [bountyRun])

end Tides
